import Mathlib

/-!
Verification of the shootgame simulation core against its specification.

The embedding follows the TypeScript source:
  - src/game/GameEngine.ts      (class GameEngine: triggerSkill, update,
                                 killEnemy, checkCollisions, handleCollision,
                                 and the MissileMath section of the same file)
  - src/game/BlackHole.ts, second module in the file (the Entities module the
    engine compiles against: Entity, Player, Bullet, Enemy, Item, Shield,
    Shockwave, FloatingText, Particle)
  - src/unnamed/part_000        (the types module: EntityType, ItemType enums)

Numbers are embedded as rationals.  JavaScript numeric comparisons of the form
Math.sqrt(q) < r are translated to the exactly equivalent comparisons on
squares (for nonnegative radicands and with the sign of r handled explicitly),
so no square-root approximation enters any branch condition.  Where the source
manipulates IEEE special values (the missile-intercept math), numbers are
embedded as a dedicated type JsNum with NaN and signed infinities and the
ECMAScript semantics of the arithmetic operators, Math.sqrt, Math.min and
Math.max on those values; finite arithmetic is exact (zeros are not signed:
every positive or negative zero of the source is the single rational 0, which agrees with the
source on every branch the theorems below touch, as documented inline).
Math.random() is modelled by an oracle queue of rationals carried in the
engine state; each call pops one value (default 1/2 when the queue is empty).
-/

namespace ShootGame

/-! ## JavaScript number model (for the missile guidance math)

The guidance math of MissileMath.calculateIntercept (GameEngine.ts lines
761-796) divides by `2 * a` where `a` can be exactly 0, so its behaviour on
NaN and the infinities is essential.  JsNum models an ECMAScript number:
finite values are exact rationals, plus positive infinity, negative infinity
and NaN. -/

inductive JsNum where
  | fin (q : ℚ)
  | posInf
  | negInf
  | nan
  deriving DecidableEq, Repr

namespace JsNum

/-- ECMAScript addition on JsNum. -/
def add : JsNum → JsNum → JsNum
  | nan, _ => nan
  | _, nan => nan
  | posInf, negInf => nan
  | negInf, posInf => nan
  | posInf, _ => posInf
  | _, posInf => posInf
  | negInf, _ => negInf
  | _, negInf => negInf
  | fin a, fin b => fin (a + b)

/-- ECMAScript subtraction on JsNum. -/
def sub : JsNum → JsNum → JsNum
  | nan, _ => nan
  | _, nan => nan
  | posInf, posInf => nan
  | negInf, negInf => nan
  | posInf, _ => posInf
  | negInf, _ => negInf
  | _, posInf => negInf
  | _, negInf => posInf
  | fin a, fin b => fin (a - b)

/-- ECMAScript unary minus on JsNum (signed zero collapsed to 0). -/
def neg : JsNum → JsNum
  | nan => nan
  | posInf => negInf
  | negInf => posInf
  | fin a => fin (-a)

/-- ECMAScript multiplication on JsNum: an infinity times zero is NaN,
otherwise infinities follow the sign rule. -/
def mul : JsNum → JsNum → JsNum
  | nan, _ => nan
  | _, nan => nan
  | posInf, posInf => posInf
  | posInf, negInf => negInf
  | negInf, posInf => negInf
  | negInf, negInf => posInf
  | posInf, fin b => if b = 0 then nan else if 0 < b then posInf else negInf
  | fin a, posInf => if a = 0 then nan else if 0 < a then posInf else negInf
  | negInf, fin b => if b = 0 then nan else if 0 < b then negInf else posInf
  | fin a, negInf => if a = 0 then nan else if 0 < a then negInf else posInf
  | fin a, fin b => fin (a * b)

/-- ECMAScript division on JsNum.  Division of a nonzero finite value by the
zero of this model follows the +0 rule (the only zero divisors reached in the
source arise as `2 * a` with `a = x - x = +0`, which is positive zero in
IEEE-754 round-to-nearest). -/
def div : JsNum → JsNum → JsNum
  | nan, _ => nan
  | _, nan => nan
  | posInf, posInf => nan
  | posInf, negInf => nan
  | negInf, posInf => nan
  | negInf, negInf => nan
  | posInf, fin b => if 0 ≤ b then posInf else negInf
  | negInf, fin b => if 0 ≤ b then negInf else posInf
  | fin _, posInf => fin 0
  | fin _, negInf => fin 0
  | fin a, fin b =>
      if b = 0 then (if a = 0 then nan else if 0 < a then posInf else negInf)
      else fin (a / b)

/-- Math.sqrt on JsNum: NaN for negative arguments (and NaN and negative
infinity); on nonnegative rationals it is Rat.sqrt, which is exact on every
perfect square of a rational — all radicands reached by the theorems below
are perfect squares, so no rounding enters any proved statement. -/
def sqrt : JsNum → JsNum
  | nan => nan
  | negInf => nan
  | posInf => posInf
  | fin q => if q < 0 then nan else fin (Rat.sqrt q)

/-- The ECMAScript `<` comparison: false whenever either side is NaN. -/
def lt : JsNum → JsNum → Bool
  | nan, _ => false
  | _, nan => false
  | negInf, negInf => false
  | negInf, _ => true
  | _, negInf => false
  | posInf, _ => false
  | fin _, posInf => true
  | fin a, fin b => decide (a < b)

/-- Math.max on JsNum: NaN if either argument is NaN. -/
def max : JsNum → JsNum → JsNum
  | nan, _ => nan
  | _, nan => nan
  | a, b => if lt a b then b else a

/-- Math.min on JsNum: NaN if either argument is NaN. -/
def min : JsNum → JsNum → JsNum
  | nan, _ => nan
  | _, nan => nan
  | a, b => if lt a b then a else b

/-- isFinite: true exactly on finite values. -/
def isFinite : JsNum → Bool
  | fin _ => true
  | _ => false

end JsNum

/-- A 2D vector of JsNum, the Vector2 of the missile math. -/
structure JsVec where
  x : JsNum
  y : JsNum
  deriving DecidableEq, Repr

open JsNum in
/-- MissileMath.calculateIntercept (GameEngine.ts lines 761-796): solve the
intercept-time quadratic `t^2 (|v|^2 - s^2) + 2 t (P . v) + |P|^2 = 0` for the
relative position P of the target and its velocity v against missile speed s;
fall back to the target position when the discriminant is negative or the
chosen root is negative. -/
def calculateIntercept (targetPos targetVel missilePos : JsVec)
    (missileSpeed : JsNum) : JsVec :=
  let relX := sub targetPos.x missilePos.x
  let relY := sub targetPos.y missilePos.y
  let a := sub (add (mul targetVel.x targetVel.x) (mul targetVel.y targetVel.y))
      (mul missileSpeed missileSpeed)
  let b := mul (fin 2) (add (mul relX targetVel.x) (mul relY targetVel.y))
  let c := add (mul relX relX) (mul relY relY)
  let disc := sub (mul b b) (mul (mul (fin 4) a) c)
  if lt disc (fin 0) then targetPos
  else
    let sd := sqrt disc
    let t1 := div (add (neg b) sd) (mul (fin 2) a)
    let t2 := div (sub (neg b) sd) (mul (fin 2) a)
    let t := if lt (fin 0) (max t1 t2) then min t1 t2 else max t1 t2
    if lt t (fin 0) then targetPos
    else ⟨add targetPos.x (mul targetVel.x t), add targetPos.y (mul targetVel.y t)⟩

/-! ## Entity and engine state model

EType mirrors the EntityType enum of the types module (src/unnamed/part_000
lines 104-128); ItemKind mirrors ItemType (lines 138-142).  Ent is the flat
record of every field of the Entity class hierarchy that the simulation logic
reads or writes (rendering-only fields are omitted); field defaults are the
class initializers.  JavaScript objects are dynamic records, so one flat
record is a faithful model: fields a given variant never touches keep their
defaults and are never read on that variant. -/

inductive EType where
  | PLAYER | ENEMY_BASIC | ENEMY_FAST | ENEMY_TANK | ENEMY_KAMIKAZE | ENEMY_BOSS
  | BULLET_PLAYER | BULLET_ENEMY | PARTICLE | CHARGE_PARTICLE | STAR | NEBULA
  | ITEM | SKILL_SHIELD | SKILL_SHOCKWAVE | SKILL_BLACKHOLE | FLOATING_TEXT
  | WEAPON_LASER | WEAPON_TESLA | WEAPON_BOMB | WEAPON_MISSILE | EXPLOSION_EFFECT
  deriving DecidableEq, Repr

inductive ItemKind where
  | HEALTH | MANA | WEAPON_UP
  deriving DecidableEq, Repr

/-- One simulation entity: the union of the gameplay-relevant fields of the
Entity subclasses in the Entities module (the second module inside
src/game/BlackHole.ts, the one the engine's field accesses resolve against).
Defaults are the constructor defaults of that module (base Entity radius 10,
Player skill maxima 20/15/10, shield duration 5, chargeRate 100, ...). -/
structure Ent where
  tag : EType
  x : ℚ := 0
  y : ℚ := 0
  vx : ℚ := 0
  vy : ℚ := 0
  ax : ℚ := 0
  ay : ℚ := 0
  rot : ℚ := 0
  radius : ℚ := 10
  marked : Bool := false
  health : ℚ := 0
  maxHealth : ℚ := 0
  damage : ℚ := 0
  scoreValue : ℚ := 0
  isBoss : Bool := false
  fireTimer : ℚ := 0
  life : ℚ := 0
  mana : ℚ := 0
  maxMana : ℚ := 0
  manaRegen : ℚ := 0
  level : ℚ := 1
  xp : ℚ := 0
  nextLevelXp : ℚ := 1000
  damageMultiplier : ℚ := 1
  isCharging : Bool := false
  chargeLevel : ℚ := 0
  chargeRate : ℚ := 100
  shieldCur : ℚ := 0
  shieldMax : ℚ := 20
  shieldActive : Bool := false
  shieldDuration : ℚ := 5
  shieldActiveTimer : ℚ := 0
  blackholeCur : ℚ := 0
  blackholeMax : ℚ := 15
  shockwaveCur : ℚ := 0
  shockwaveMax : ℚ := 10
  itemKind : ItemKind := ItemKind.HEALTH
  width : ℚ := 0
  length : ℚ := 0
  pullRadius : ℚ := 0

instance : Inhabited Ent := ⟨{ tag := EType.STAR }⟩

/-- The engine state: the fields of class GameEngine that the simulation
logic reads or writes.  playerIdx is the index of the entity aliased by
this.player (the engine pushes the player into the entities array at start,
so the reference is modelled as an index into the collection).  rng is the
oracle queue modelling Math.random(); lowQuality models
settings.effectQuality equal to LOW. -/
structure Engine where
  entities : List Ent := []
  score : ℚ := 0
  bossActive : Bool := false
  bossNextSpawnScore : ℚ := 2000
  spawnTimer : ℚ := 0
  shakeIntensity : ℚ := 0
  shakeTimer : ℚ := 0
  hitStopTimer : ℚ := 0
  playerIdx : Option Nat := none
  lowQuality : Bool := false
  width : ℚ := 800
  height : ℚ := 600
  rng : List ℚ := []

/-- The value of one Math.random() call: the next oracle value (default 1/2).
Every site that calls Math.random() reads randQ and then advances the queue
with randAdv. -/
def randQ (s : Engine) : ℚ := s.rng.headD (1/2)

/-- Advance the random oracle queue past one consumed value. -/
def randAdv (s : Engine) : Engine := { s with rng := s.rng.tail }

/-- Read the entity behind an index (model of a JS object reference). -/
def getEnt (s : Engine) (i : Nat) : Ent := s.entities.getD i default

/-- Mutate the entity behind an index in place. -/
def updAt (s : Engine) (i : Nat) (f : Ent → Ent) : Engine :=
  { s with entities := s.entities.set i (f (s.entities.getD i default)) }

/-- this.entities.push(e). -/
def push (s : Engine) (e : Ent) : Engine :=
  { s with entities := s.entities ++ [e] }

def markEnt (e : Ent) : Ent := { e with marked := true }

/-- Squared distance between two entities. -/
def dist2 (a b : Ent) : ℚ :=
  (a.x - b.x) * (a.x - b.x) + (a.y - b.y) * (a.y - b.y)

/-- Exact translation of the comparison Math.sqrt q < r for a nonnegative
radicand: equivalent to 0 < r and q < r * r. -/
def sqrtLt (q r : ℚ) : Bool := decide (0 < r) && decide (q < r * r)

/-- Exact translation of the comparison Math.sqrt q > r for a nonnegative
radicand: true when r is negative, else r * r < q. -/
def sqrtGt (q r : ℚ) : Bool := decide (r < 0) || decide (r * r < q)

/-- Is the tag one of the Enemy variants (instanceof Enemy)? -/
def isEnemyTag (e : Ent) : Bool :=
  match e.tag with
  | EType.ENEMY_BASIC | EType.ENEMY_FAST | EType.ENEMY_TANK
  | EType.ENEMY_KAMIKAZE | EType.ENEMY_BOSS => true
  | _ => false

/-- score accumulation (killEnemy line 448). -/
def addScore (s : Engine) (q : ℚ) : Engine := { s with score := s.score + q }

/-- The boss-death scheduler update (killEnemy lines 453-455): clear the
boss flag and set the next boss threshold to the current score plus 5000. -/
def bossDown (s : Engine) : Engine :=
  { s with bossActive := false, bossNextSpawnScore := s.score + 5000 }

/-- The hit-stop trigger of handleCollision (line 679). -/
def setHitStop (s : Engine) (q : ℚ) : Engine := { s with hitStopTimer := q }

/-- GameEngine.addShake (lines 154-157). -/
def addShake (s : Engine) (intensity duration : ℚ) : Engine :=
  { s with shakeIntensity := intensity, shakeTimer := duration }

/-- The FloatingText constructor (text and colour are presentation-only and
not modelled); velocity.x draws one oracle value. -/
def mkFloatingText (s : Engine) (x y : ℚ) : Engine :=
  let r := randQ s
  push (randAdv s) { tag := EType.FLOATING_TEXT, x := x, y := y,
                     vx := (r - 1/2) * 20, vy := -60, life := 1 }

/-- GameEngine.spawnFloatingText (lines 159-163): at the given position, else
40 above the player, else the screen centre. -/
def spawnFloatingText (s : Engine) (pos : Option (ℚ × ℚ)) : Engine :=
  match pos, s.playerIdx with
  | some p, _ => mkFloatingText s p.1 p.2
  | none, some pi => mkFloatingText s (getEnt s pi).x ((getEnt s pi).y - 40)
  | none, none => mkFloatingText s (s.width / 2) (s.height / 2)

/-- One particle of an explosion: new Particle(x, y, color, speed,
0.4 + rnd*0.4, 2 + rnd*3).  The constructor scatters the velocity by a random
angle and magnitude (cos/sin of a uniform angle); the composition of the
PRNG with the trigonometry is modelled as two further oracle draws that
directly give the two velocity components as fractions of speed. -/
def mkParticle (s : Engine) (x y speed : ℚ) : Engine :=
  let r1 := randQ s
  let s := randAdv s
  let s := randAdv s
  let r3 := randQ s
  let s := randAdv s
  let r4 := randQ s
  let s := randAdv s
  push s { tag := EType.PARTICLE, x := x, y := y,
           vx := r3 * speed, vy := r4 * speed, life := 2/5 + r1 * (2/5) }

def explosionLoop : Engine → ℚ → ℚ → ℚ → ℕ → Engine
  | s, _, _, _, 0 => s
  | s, x, y, sp, n + 1 => explosionLoop (mkParticle s x y sp) x y sp n

/-- GameEngine.createExplosion (lines 481-486): on LOW effect quality the
particle count is Math.ceil(count / 3). -/
def createExplosion (s : Engine) (x y : ℚ) (count : ℕ) (speed : ℚ) : Engine :=
  let count := if s.lowQuality then (count + 2) / 3 else count
  explosionLoop s x y speed count

/-- The Item constructor: one oracle draw selects the item kind with the
source thresholds 0.25 and 0.6; radius 18, falls at 80. -/
def pushItem (s : Engine) (x y : ℚ) : Engine :=
  let r := randQ s
  let kind := if r < 1/4 then ItemKind.HEALTH
              else if r < 3/5 then ItemKind.MANA
              else ItemKind.WEAPON_UP
  push (randAdv s) { tag := EType.ITEM, x := x, y := y, radius := 18, vy := 80,
                     itemKind := kind }

/-- GameEngine.dropItem (lines 475-479): drop with probability
Math.random() > 0.6. -/
def dropItem (s : Engine) (x y : ℚ) : Engine :=
  let r := randQ s
  let s := randAdv s
  if 3/5 < r then pushItem s x y else s

/-- Player.gainXp of the Entities module (BlackHole.ts second module,
lines 303-313): on level-up, carry the surplus xp, raise the next threshold
to floor(next * 1.5), add 0.3 to the damage multiplier and refill health and
mana to their maxima. -/
def gainXp (p : Ent) (amount : ℚ) : Ent :=
  let p := { p with xp := p.xp + amount }
  if p.nextLevelXp ≤ p.xp then
    { p with xp := p.xp - p.nextLevelXp,
             level := p.level + 1,
             nextLevelXp := ((p.nextLevelXp * (3/2) : ℚ).floor : ℚ),
             damageMultiplier := p.damageMultiplier + 3/10,
             health := p.maxHealth,
             mana := p.maxMana }
  else p

/-- The five scattered item drops of a boss kill (killEnemy, line 457):
each draws two oracle values for the position scatter and then rolls the
drop. -/
def bossDrops : Engine → ℚ → ℚ → ℕ → Engine
  | s, _, _, 0 => s
  | s, x, y, n + 1 =>
      let rx := randQ s
      let s := randAdv s
      let ry := randQ s
      let s := randAdv s
      let s := dropItem s (x + (rx - 1/2) * 100) (y + (ry - 1/2) * 100)
      bossDrops s x y n

/-- The experience grant at the end of killEnemy: if this.player exists,
player.gainXp(amount). -/
def grantXp (s : Engine) (amount : ℚ) : Engine :=
  match s.playerIdx with
  | some pi => updAt s pi (fun p => gainXp p amount)
  | none => s

/-- GameEngine.killEnemy (lines 445-463): a no-op on an enemy already marked
for deletion; otherwise mark it, add its score value, spawn an explosion,
clear the boss flag and push the next boss threshold to score + 5000 when it
was the boss (with five item drops), else roll one drop, and finally grant
the player experience. -/
def killEnemy (s : Engine) (i : Nat) : Engine :=
  let e := getEnt s i
  if e.marked then s
  else
    let s := updAt s i markEnt
    let s := addScore s e.scoreValue
    let s := createExplosion s e.x e.y 15 300
    let s :=
      if e.isBoss then
        let s := bossDown s
        let s := addShake s 30 2
        bossDrops s e.x e.y 5
      else dropItem s e.x e.y
    grantXp s (if e.isBoss then 2000 else 50)

/-- The enemy-damage chain of handleCollision's first block (lines 648-658):
consume the bullet, subtract its damage from the enemy, explosion and damage
text at the enemy, and the kill when health drops to or below 0. -/
def hcDamageEnemy (s : Engine) (ei bi : Nat) : Engine :=
  let enemy := getEnt s ei
  let bullet := getEnt s bi
  let s := updAt s bi markEnt
  let s := updAt s ei (fun e => { e with health := e.health - bullet.damage })
  let s := createExplosion s enemy.x enemy.y 2 200
  let s := spawnFloatingText s (some (enemy.x, enemy.y))
  if enemy.health - bullet.damage ≤ 0 then killEnemy s ei else s

/-- The first block of GameEngine.handleCollision (lines 648-658): a player
bullet against an enemy. -/
def handleCollisionFirst (s : Engine) (i j : Nat) : Engine :=
  let a := getEnt s i
  let b := getEnt s j
  if (a.tag == EType.BULLET_PLAYER || b.tag == EType.BULLET_PLAYER)
      && (isEnemyTag a || isEnemyTag b) then
    hcDamageEnemy s (if isEnemyTag a then i else j)
      (if a.tag == EType.BULLET_PLAYER then i else j)
  else s

/-- The player-damage chain of handleCollision's second block (lines 660-685):
skipped while the shield is active; the contacting bullet is consumed or the
contacting enemy takes 100; the player takes the fixed 10 with no clamp at 0,
with the death explosion when health drops to or below 0. -/
def hcDamagePlayer (s : Engine) (pi oi : Nat) : Engine :=
  let player := getEnt s pi
  let other := getEnt s oi
  if player.shieldActive then s
  else
    let s :=
      if other.tag == EType.BULLET_PLAYER || other.tag == EType.BULLET_ENEMY then
        updAt s oi markEnt
      else if isEnemyTag other then
        let s := updAt s oi (fun e => { e with health := e.health - 100 })
        if other.health - 100 ≤ 0 then killEnemy s oi else s
      else s
    let s := updAt s pi (fun p => { p with health := p.health - 10 })
    let s := spawnFloatingText s (some (player.x, player.y))
    let s := createExplosion s player.x player.y 20 400
    let s := addShake s 15 (2/5)
    let s := setHitStop s (1/20)
    if player.health - 10 ≤ 0 then
      let s := updAt s pi markEnt
      createExplosion s player.x player.y 60 500
    else s

/-- GameEngine.handleCollision (lines 642-686).  First block: player bullet
against enemy.  Second block: enemy bullet or enemy contact against the
player, skipped entirely while the shield is active; contact damage to the
player is the fixed 10, a touching enemy takes 100.  The second block's
guard reads the tags captured at entry (entity tags are never reassigned),
while its body re-reads the entities mutated by the first block. -/
def handleCollision (s : Engine) (i j : Nat) : Engine :=
  let a := getEnt s i
  let b := getEnt s j
  let isPlayerPair := a.tag == EType.PLAYER || b.tag == EType.PLAYER
  let isEnemyPair := isEnemyTag a || isEnemyTag b
  let isEnemyBulletPair := a.tag == EType.BULLET_ENEMY || b.tag == EType.BULLET_ENEMY
  let s2 := handleCollisionFirst s i j
  if (isEnemyBulletPair || isEnemyPair) && isPlayerPair then
    let a2 := getEnt s2 i
    hcDamagePlayer s2 (if a2.tag == EType.PLAYER then i else j)
      (if a2.tag == EType.PLAYER then j else i)
  else s2

/-- The item pickup branch of checkCollisions (lines 546-568): within pickup
range, consume the item and apply its effect, clamping health and mana gains
at their maxima. -/
def itemPickup (s : Engine) (ii pi : Nat) : Engine :=
  let item := getEnt s ii
  let player := getEnt s pi
  if sqrtLt (dist2 item player) (player.radius + item.radius) then
    let s := updAt s ii markEnt
    let s :=
      match item.itemKind with
      | ItemKind.HEALTH =>
          updAt s pi (fun p => { p with health := min p.maxHealth (p.health + 30) })
      | ItemKind.MANA =>
          updAt s pi (fun p => { p with mana := min p.maxMana (p.mana + 50) })
      | ItemKind.WEAPON_UP => updAt s pi (fun p => gainXp p 300)
    let s := spawnFloatingText s (some (item.x, item.y))
    createExplosion s item.x item.y 10 200
  else s

/-- The laser hit test and damage chain of the scan (lines 594-614): the
rectangular hit box against the beam at li; an enemy takes the beam damage
with two randomly scattered effects, any other target falls through to
handleCollision on the original pair (i, j). -/
def laserHit (s : Engine) (i j li ti : Nat) : Engine :=
  let laser := getEnt s li
  let target := getEnt s ti
  let relX := |target.x - laser.x|
  let relY := laser.y - target.y
  if decide (relX < (if laser.width == 0 then laser.radius else laser.width)
        + target.radius) && decide (0 < relY) && decide (relY < laser.length) then
    if isEnemyTag target then
      let dmg := if laser.damage == 0 then 10 else laser.damage
      let s := updAt s ti (fun e => { e with health := e.health - dmg })
      let r1 := randQ s
      let s := randAdv s
      let s := createExplosion s (target.x + (r1 - 1/2) * 20) target.y 1 200
      let r2 := randQ s
      let s := randAdv s
      let s := spawnFloatingText s (some (target.x + (r2 - 1/2) * 20, target.y))
      if target.health - dmg ≤ 0 then killEnemy s ti else s
    else handleCollision s i j
  else s

/-- The missile proximity hit of the scan (lines 615-631): within the summed
radii of missile and target (q is the squared pair distance), an enemy target
consumes the missile, which explodes and deals its damage. -/
def missileHit (s : Engine) (q : ℚ) (mi ti : Nat) : Engine :=
  let missile := getEnt s mi
  let target := getEnt s ti
  if sqrtLt q (missile.radius + target.radius) then
    if isEnemyTag target then
      let s := updAt s mi markEnt
      let s := createExplosion s missile.x missile.y 15 200
      let s := push s { tag := EType.EXPLOSION_EFFECT, x := missile.x,
                        y := missile.y, radius := 10, life := 1/2 }
      let s := updAt s ti (fun e => { e with health := e.health - missile.damage })
      let s := spawnFloatingText s (some (target.x, target.y))
      if target.health - missile.damage ≤ 0 then killEnemy s ti else s
    else s
  else s

/-- The body of the pairwise collision scan for the pair (i, j): everything
inside the inner loop of GameEngine.checkCollisions (lines 497-637) after
the two markedForDeletion guards.  Comparisons of Math.sqrt against bounds
are translated to the exact squared comparisons sqrtLt and sqrtGt; the band
test abs(dist - radius) < 60 becomes dist > radius - 60 and
dist < radius + 60.  The gravity-well pull needs the distance value itself
and uses Rat.sqrt there (a zero distance, which in the source produces a NaN
displacement, leaves the position unchanged here; no theorem below touches
that corner). -/
def pairBody (s : Engine) (i j : Nat) : Engine :=
  let a := getEnt s i
  let b := getEnt s j
  if a.tag == EType.SKILL_SHOCKWAVE || b.tag == EType.SKILL_SHOCKWAVE then
    let wi := if a.tag == EType.SKILL_SHOCKWAVE then i else j
    let oi := if a.tag == EType.SKILL_SHOCKWAVE then j else i
    let wave := getEnt s wi
    let other := getEnt s oi
    let q := dist2 wave other
    if sqrtGt q (wave.radius - 60) && sqrtLt q (wave.radius + 60) then
      if isEnemyTag other then
        let s := updAt s oi (fun e => { e with health := e.health - 2 })
        let s := spawnFloatingText s (some (other.x, other.y))
        if other.health - 2 ≤ 0 then killEnemy s oi else s
      else if other.tag == EType.BULLET_ENEMY then updAt s oi markEnt
      else s
    else s
  else if a.tag == EType.SKILL_BLACKHOLE || b.tag == EType.SKILL_BLACKHOLE then
    let bi := if a.tag == EType.SKILL_BLACKHOLE then i else j
    let oi := if a.tag == EType.SKILL_BLACKHOLE then j else i
    let bh := getEnt s bi
    let other := getEnt s oi
    let q := dist2 bh other
    if isEnemyTag other && !other.isBoss then
      let s :=
        if sqrtLt q bh.pullRadius then
          let d := Rat.sqrt q
          updAt s oi (fun e => { e with x := e.x + ((bh.x - e.x) / d) * 3,
                                        y := e.y + ((bh.y - e.y) / d) * 3 })
        else s
      if sqrtLt q 40 then
        let s := updAt s oi (fun e => { e with health := e.health - 5 })
        if other.health - 5 ≤ 0 then killEnemy s oi else s
      else s
    else if other.tag == EType.BULLET_ENEMY then
      if sqrtLt q (bh.radius + 20) then
        let s := updAt s oi markEnt
        match s.playerIdx with
        | some pi =>
            updAt s pi (fun p => { p with health := min p.maxHealth (p.health + 1) })
        | none => s
      else s
    else s
  else if (a.tag == EType.ITEM && b.tag == EType.PLAYER)
       || (b.tag == EType.ITEM && a.tag == EType.PLAYER) then
    let ii := if a.tag == EType.ITEM then i else j
    let pi := if a.tag == EType.PLAYER then i else j
    itemPickup s ii pi
  else if (a.tag == EType.BULLET_PLAYER && b.tag == EType.PLAYER)
       || (a.tag == EType.BULLET_ENEMY && isEnemyTag b)
       || (isEnemyTag a && isEnemyTag b) then s
  else
    let shieldOn := (a.tag == EType.PLAYER && a.shieldActive)
                 || (b.tag == EType.PLAYER && b.shieldActive)
    let oi := if a.tag == EType.PLAYER then j else i
    let other := getEnt s oi
    if shieldOn && sqrtLt (dist2 a b) (50 + other.radius) then
      if other.tag == EType.BULLET_ENEMY then updAt s oi markEnt else s
    else if a.tag == EType.WEAPON_LASER || b.tag == EType.WEAPON_LASER then
      laserHit s i j (if a.tag == EType.WEAPON_LASER then i else j)
        (if a.tag == EType.WEAPON_LASER then j else i)
    else if a.tag == EType.WEAPON_MISSILE || b.tag == EType.WEAPON_MISSILE then
      missileHit s (dist2 a b) (if a.tag == EType.WEAPON_MISSILE then i else j)
        (if a.tag == EType.WEAPON_MISSILE then j else i)
    else if sqrtLt (dist2 a b) (a.radius + b.radius) then handleCollision s i j
    else s

/-- One tested pair of the scan: indices at test time and whether the outer
entity was already marked for deletion when the pair was tested (the scan
checks the outer entity once per row, so an entity marked mid-row keeps
being tested). -/
structure PairTest where
  i : Nat
  j : Nat
  outerMarked : Bool
  deriving DecidableEq, Repr

/-- The inner loop of checkCollisions: j from i+1 while j < entities.length
(the length is re-read every iteration, so entities pushed during the scan
are iterated too).  The outer entity is only checked for markedForDeletion
once per row, before this loop; the log records its marked flag at each
test.  Fuel-indexed; none means the fuel bound was hit (never the case in
the finite runs proved below). -/
def scanInner : ℕ → Engine → List PairTest → ℕ → ℕ → Option (Engine × List PairTest)
  | 0, _, _, _, _ => none
  | fuel + 1, s, log, i, j =>
      if j < s.entities.length then
        let b := getEnt s j
        if b.marked then scanInner fuel s log i (j + 1)
        else
          let a := getEnt s i
          let log := log ++ [⟨i, j, a.marked⟩]
          let s := pairBody s i j
          scanInner fuel s log i (j + 1)
      else some (s, log)

/-- The outer loop of checkCollisions: rows with an already-marked outer
entity are skipped wholesale. -/
def scanOuter : ℕ → ℕ → Engine → List PairTest → ℕ → Option (Engine × List PairTest)
  | 0, _, _, _, _ => none
  | fuel + 1, innerFuel, s, log, i =>
      if i < s.entities.length then
        let a := getEnt s i
        if a.marked then scanOuter fuel innerFuel s log (i + 1)
        else
          match scanInner innerFuel s log i (i + 1) with
          | none => none
          | some (s, log) => scanOuter fuel innerFuel s log (i + 1)
      else some (s, log)

/-- GameEngine.checkCollisions (lines 488-640), instrumented with the log of
tested pairs.  The fuel is a generous bound on loop iterations; all concrete
runs below complete (the result is some). -/
def checkCollisions (s : Engine) : Option (Engine × List PairTest) :=
  let fuel := (s.entities.length + 64) * (s.entities.length + 64)
  scanOuter fuel fuel s [] 0

/-- The removal sweep at the end of GameEngine.update (line 436): the live
collection of the next tick drops every entity marked for deletion.  This is
the only place entities are removed. -/
def sweep (s : Engine) : Engine :=
  { s with entities := s.entities.filter (fun e => !e.marked) }

/-- GameEngine.triggerSkill (lines 125-152).  Skill 1 (shield): requires
cooldown-remaining ≤ 0 and mana ≥ 40; deducts 40, resets the cooldown to its
max, activates the shield with its duration and pushes a Shield entity.
Skill 2 (gravity well): requires cooldown ≤ 0 and mana ≥ 60; deducts 60,
resets the cooldown and pushes a BlackHole 300 above the player.  Skill 3
(shockwave): requires cooldown ≤ 0 and mana ≥ 50; deducts 50, resets the
cooldown and pushes a Shockwave.  Every trigger also shakes the screen and
pushes a FloatingText.  Anything else is a no-op. -/
def triggerSkill (s : Engine) (index : ℕ) : Engine :=
  match s.playerIdx with
  | none => s
  | some pi =>
    let p := getEnt s pi
    if p.marked then s
    else if index == 1 && decide (p.shieldCur ≤ 0) && decide (40 ≤ p.mana) then
      let s := updAt s pi (fun p =>
        { p with mana := p.mana - 40, shieldCur := p.shieldMax,
                 shieldActive := true, shieldActiveTimer := p.shieldDuration })
      let s := push s { tag := EType.SKILL_SHIELD, x := p.x, y := p.y, radius := 60 }
      let s := addShake s 5 (1/5)
      spawnFloatingText s none
    else if index == 2 && decide (p.blackholeCur ≤ 0) && decide (60 ≤ p.mana) then
      let s := updAt s pi (fun p =>
        { p with mana := p.mana - 60, blackholeCur := p.blackholeMax })
      let s := push s { tag := EType.SKILL_BLACKHOLE, x := p.x, y := p.y - 300 }
      let s := addShake s 10 (1/2)
      spawnFloatingText s none
    else if index == 3 && decide (p.shockwaveCur ≤ 0) && decide (50 ≤ p.mana) then
      let s := updAt s pi (fun p =>
        { p with mana := p.mana - 50, shockwaveCur := p.shockwaveMax })
      let s := push s { tag := EType.SKILL_SHOCKWAVE, x := p.x, y := p.y }
      let s := addShake s 25 (2/5)
      spawnFloatingText s none
    else s

/-- Outcome of the charge-weapon step. -/
structure LaserOut where
  isCharging : Bool
  chargeLevel : ℚ
  spawned : Bool
  deriving DecidableEq, Repr

/-- The LASER weapon logic of GameEngine.update (lines 232-249) as a pure
step.  While the fire input is held, charge accumulates at chargeRate,
capped at 100 (charge particles are purely visual and not modelled here).
On release, a beam is spawned only if the weapon was charging, the charge
level has reached 100 and no beam of this player already exists; the charge
is zeroed on spawn and in any case decays at twice the charge rate, floored
at 0.  existingBeam models the engine's search for a live Laser owned by
the player. -/
def laserWeaponStep (isFiring isCharging : Bool) (chargeLevel chargeRate dt : ℚ)
    (existingBeam : Bool) : LaserOut :=
  if isFiring then
    { isCharging := true,
      chargeLevel := min 100 (chargeLevel + chargeRate * dt),
      spawned := false }
  else
    let spawned := isCharging && decide (100 ≤ chargeLevel) && !existingBeam
    let cl := if spawned then 0 else chargeLevel
    { isCharging := false,
      chargeLevel := max 0 (cl - chargeRate * dt * 2),
      spawned := spawned }

/-- Outcome of the spawn-scheduler step. -/
structure SpawnOut where
  bossActive : Bool
  spawnTimer : ℚ
  bossSpawned : Bool
  enemySpawned : Bool
  deriving DecidableEq, Repr

/-- The difficulty and spawn scheduling of GameEngine.update (lines 190-210)
as a pure step.  difficultyBase is 0.5, 1 or 1.5 by the difficulty setting;
the multiplier is base + score / 5000.  A boss spawns exactly when the score
strictly exceeds the boss threshold while no boss is active.  An ordinary
enemy spawns when no boss is active and the spawn timer exceeds
max(0.3, 1.8 - multiplier * 0.1); while a boss is active it spawns only when
the timer exceeds the fixed 3.0.  A spawn resets the timer. -/
def spawnStep (difficultyBase score bossNextSpawnScore : ℚ) (bossActive : Bool)
    (spawnTimer dt : ℚ) : SpawnOut :=
  let difficultyMultiplier := difficultyBase + score / 5000
  let bossSpawned := decide (bossNextSpawnScore < score) && !bossActive
  let bossActive := bossActive || bossSpawned
  let t := spawnTimer + dt
  let spawnRate := if bossActive then (5/2 : ℚ)
                   else max (3/10) (9/5 - difficultyMultiplier * (1/10))
  if decide (spawnRate < t) && !bossActive then
    { bossActive := bossActive, spawnTimer := 0,
      bossSpawned := bossSpawned, enemySpawned := true }
  else if bossActive && decide ((3 : ℚ) < t) then
    { bossActive := bossActive, spawnTimer := 0,
      bossSpawned := bossSpawned, enemySpawned := true }
  else
    { bossActive := bossActive, spawnTimer := t,
      bossSpawned := bossSpawned, enemySpawned := false }

/-- Player.update of the Entities module (BlackHole.ts second module, lines
277-301): Euler integration with drag 5.0, banking rotation, mana
regeneration clamped at maxMana, the three cooldowns counting down while
positive, and the shield active timer deactivating the shield at 0. -/
def playerUpdate (p : Ent) (dt : ℚ) : Ent :=
  let vx := p.vx + p.ax * dt
  let vy := p.vy + p.ay * dt
  let vx := vx - vx * 5 * dt
  let vy := vy - vy * 5 * dt
  let x := p.x + vx * dt
  let y := p.y + vy * dt
  let rot := (vx / 650) * (2/5)
  let mana := min p.maxMana (p.mana + p.manaRegen * dt)
  let shieldCur := if 0 < p.shieldCur then p.shieldCur - dt else p.shieldCur
  let blackholeCur := if 0 < p.blackholeCur then p.blackholeCur - dt else p.blackholeCur
  let shockwaveCur := if 0 < p.shockwaveCur then p.shockwaveCur - dt else p.shockwaveCur
  let p := { p with vx := vx, vy := vy, x := x, y := y, rot := rot,
                    mana := mana, shieldCur := shieldCur,
                    blackholeCur := blackholeCur, shockwaveCur := shockwaveCur }
  if p.shieldActive then
    let t := p.shieldActiveTimer - dt
    if t ≤ 0 then { p with shieldActiveTimer := t, shieldActive := false }
    else { p with shieldActiveTimer := t }
  else p

/-- The Player constructor of the Entities module: full health and mana at
100, mana regeneration 5, collision radius 20, the skill trackers at their
initializer values. -/
def mkPlayer (x y : ℚ) : Ent :=
  { tag := EType.PLAYER, x := x, y := y, radius := 20,
    health := 100, maxHealth := 100, mana := 100, maxMana := 100,
    manaRegen := 5 }

/-- GameEngine.start (lines 101-116): fresh entity list holding only the
player at (width/2, height-100), score 0, no boss, boss threshold 3000. -/
def startEngine (w h : ℚ) : Engine :=
  { entities := [mkPlayer (w / 2) (h - 100)],
    playerIdx := some 0,
    score := 0,
    bossActive := false,
    bossNextSpawnScore := 3000,
    width := w, height := h }

/-- s' extends s: the scheduler-facing core fields agree and the entity list
is only appended to (the random oracle may advance, cosmetic shake fields may
change).  All the push-only helpers of the engine satisfy this. -/
structure ExtendsE (s s' : Engine) : Prop where
  score_eq : s'.score = s.score
  bossActive_eq : s'.bossActive = s.bossActive
  bossNext_eq : s'.bossNextSpawnScore = s.bossNextSpawnScore
  playerIdx_eq : s'.playerIdx = s.playerIdx
  lowQuality_eq : s'.lowQuality = s.lowQuality
  ents : ∃ t, s'.entities = s.entities ++ t

/-- The per-entity mana invariant: mana within [0, maxMana] and nonnegative
regeneration rate. -/
def ManaEnt (e : Ent) : Prop := 0 ≤ e.mana ∧ e.mana ≤ e.maxMana ∧ 0 ≤ e.manaRegen

/-- The engine-wide mana invariant: every live entity satisfies ManaEnt. -/
def ManaInv (s : Engine) : Prop := ∀ e ∈ s.entities, ManaEnt e

/-- One engine operation of a tick, as performed by the source.  The list is
exhaustive for player mana: the only assignments to .mana in the simulation
source are the three deductions in triggerSkill, the regeneration in
Player.update, the MANA item pickup, and the refill in Player.gainXp; all of
those sites occur inside the operations below (pairBody covers the whole
collision branch tree, including killEnemy and handleCollision, which are
also listed separately because the engine calls them from the weapon and
bomb logic as well).  dt is nonnegative because the tick driver clamps
dt into [0, 0.1]. -/
inductive ManaStep : Engine → Engine → Prop where
  | tick (s : Engine) (i : Nat) (dt : ℚ) (hdt : 0 ≤ dt) :
      ManaStep s (updAt s i (fun p => playerUpdate p dt))
  | skill (s : Engine) (idx : ℕ) : ManaStep s (triggerSkill s idx)
  | pair (s : Engine) (i j : Nat) : ManaStep s (pairBody s i j)
  | hit (s : Engine) (i j : Nat) : ManaStep s (handleCollision s i j)
  | kill (s : Engine) (i : Nat) : ManaStep s (killEnemy s i)
  | pickup (s : Engine) (ii pi : Nat) : ManaStep s (itemPickup s ii pi)
  | xp (s : Engine) (i : Nat) (amount : ℚ) :
      ManaStep s (updAt s i (fun p => gainXp p amount))
  | sweepStep (s : Engine) : ManaStep s (sweep s)

/-- Engine states reachable from a fresh game by the steps above. -/
inductive ManaReach : Engine → Prop where
  | init (w h : ℚ) : ManaReach (startEngine w h)
  | step {s s' : Engine} : ManaReach s → ManaStep s s' → ManaReach s'

/-- A two-entity test configuration: the player (health 50, shield down) and
one enemy bullet placed on top of it. -/
def c1EngineA : Engine :=
  { entities := [{ mkPlayer 400 500 with health := 50 },
                 { tag := EType.BULLET_ENEMY, x := 400, y := 500 }],
    playerIdx := some 0 }

/-- A two-entity test configuration: a HEALTH item on top of the player, whose
health is 90 out of a maximum of 100. -/
def c1EngineB : Engine :=
  { entities := [{ tag := EType.ITEM, itemKind := ItemKind.HEALTH,
                   x := 400, y := 500 },
                 { mkPlayer 400 500 with health := 90 }],
    playerIdx := some 1 }

/-- A two-entity test configuration: the player down to health 5 and one enemy
bullet on top of it. -/
def c1EngineC : Engine :=
  { entities := [{ mkPlayer 400 500 with health := 5 },
                 { tag := EType.BULLET_ENEMY, x := 400, y := 500 }],
    playerIdx := some 0 }

/-- A two-entity test configuration: the shielded player and one enemy bullet
10 units away (overlapping, since the radii are 20 and 10). -/
def c6Engine : Engine :=
  { entities := [{ mkPlayer 400 500 with shieldActive := true },
                 { tag := EType.BULLET_ENEMY, x := 410, y := 500 }],
    playerIdx := some 0 }

/-- A three-entity test configuration for the collision scan: two enemy
bullets (radius 7) and a shockwave effect, all at the origin. -/
def c4Engine : Engine :=
  { entities := [{ tag := EType.BULLET_ENEMY, radius := 7 },
                 { tag := EType.SKILL_SHOCKWAVE },
                 { tag := EType.BULLET_ENEMY, radius := 7 }],
    playerIdx := none }

/-! ## Helper lemmas -/

lemma getD_append_left (l t : List Ent) (i : ℕ) (h : i < l.length) :
    (l ++ t).getD i default = l.getD i default := by
  rw [List.getD_eq_getElem?_getD, List.getD_eq_getElem?_getD,
    List.getElem?_append, if_pos h]

lemma getEnt_updAt_self (s : Engine) (i : Nat) (f : Ent → Ent)
    (h : i < s.entities.length) :
    getEnt (updAt s i f) i = f (getEnt s i) := by
  simp [getEnt, updAt, List.getD_eq_getElem?_getD, List.getElem?_set_self h]

lemma getEnt_updAt_ne (s : Engine) (i k : Nat) (f : Ent → Ent) (h : ¬ i = k) :
    getEnt (updAt s i f) k = getEnt s k := by
  simp [getEnt, updAt, List.getD_eq_getElem?_getD, List.getElem?_set, h]

lemma length_updAt (s : Engine) (i : Nat) (f : Ent → Ent) :
    (updAt s i f).entities.length = s.entities.length := by
  simp [updAt]

lemma getEnt_push (s : Engine) (e : Ent) (i : Nat) (h : i < s.entities.length) :
    getEnt (push s e) i = getEnt s i := by
  unfold getEnt push
  exact getD_append_left _ _ _ h

namespace ExtendsE

lemma rfl_ext (s : Engine) : ExtendsE s s :=
  ⟨rfl, rfl, rfl, rfl, rfl, ⟨[], by simp⟩⟩

lemma trans_ext {s t u : Engine} (h1 : ExtendsE s t) (h2 : ExtendsE t u) :
    ExtendsE s u := by
  refine ⟨h2.score_eq.trans h1.score_eq, h2.bossActive_eq.trans h1.bossActive_eq,
    h2.bossNext_eq.trans h1.bossNext_eq, h2.playerIdx_eq.trans h1.playerIdx_eq,
    h2.lowQuality_eq.trans h1.lowQuality_eq, ?_⟩
  obtain ⟨t1, e1⟩ := h1.ents
  obtain ⟨t2, e2⟩ := h2.ents
  exact ⟨t1 ++ t2, by rw [e2, e1, List.append_assoc]⟩

lemma push_ext (s : Engine) (e : Ent) : ExtendsE s (push s e) :=
  ⟨rfl, rfl, rfl, rfl, rfl, ⟨[e], rfl⟩⟩

lemma randAdv_ext (s : Engine) : ExtendsE s (randAdv s) :=
  ⟨rfl, rfl, rfl, rfl, rfl, ⟨[], by simp [randAdv]⟩⟩

lemma mkFloatingText_ext (s : Engine) (x y : ℚ) : ExtendsE s (mkFloatingText s x y) := by
  unfold mkFloatingText
  exact trans_ext (randAdv_ext s) (push_ext _ _)

lemma spawnFloatingText_ext (s : Engine) (pos : Option (ℚ × ℚ)) :
    ExtendsE s (spawnFloatingText s pos) := by
  unfold spawnFloatingText
  rcases pos with _ | p <;> rcases h : s.playerIdx with _ | pi <;>
    simp [h] <;> exact mkFloatingText_ext ..

lemma mkParticle_ext (s : Engine) (x y speed : ℚ) : ExtendsE s (mkParticle s x y speed) := by
  unfold mkParticle
  exact trans_ext (randAdv_ext s) (trans_ext (randAdv_ext _) (trans_ext (randAdv_ext _)
    (trans_ext (randAdv_ext _) (push_ext _ _))))

lemma explosionLoop_ext (x y sp : ℚ) :
    ∀ (n : ℕ) (s : Engine), ExtendsE s (explosionLoop s x y sp n) := by
  intro n
  induction n with
  | zero => intro s; exact rfl_ext s
  | succ k ih =>
      intro s
      exact trans_ext (mkParticle_ext s x y sp) (ih (mkParticle s x y sp))

lemma createExplosion_ext (s : Engine) (x y : ℚ) (count : ℕ) (speed : ℚ) :
    ExtendsE s (createExplosion s x y count speed) := by
  unfold createExplosion
  exact explosionLoop_ext ..

lemma pushItem_ext (s : Engine) (x y : ℚ) : ExtendsE s (pushItem s x y) := by
  unfold pushItem
  exact trans_ext (randAdv_ext s) (push_ext _ _)

lemma dropItem_ext (s : Engine) (x y : ℚ) : ExtendsE s (dropItem s x y) := by
  unfold dropItem
  by_cases h : 3 / 5 < randQ s
  · rw [if_pos h]
    exact trans_ext (randAdv_ext s) (pushItem_ext _ _ _)
  · rw [if_neg h]
    exact randAdv_ext s

lemma bossDrops_ext (x y : ℚ) :
    ∀ (n : ℕ) (s : Engine), ExtendsE s (bossDrops s x y n) := by
  intro n
  induction n with
  | zero => intro s; exact rfl_ext s
  | succ k ih =>
      intro s
      unfold bossDrops
      exact trans_ext (randAdv_ext s) (trans_ext (randAdv_ext _)
        (trans_ext (dropItem_ext _ _ _) (ih _)))

lemma addShake_ext (s : Engine) (a b : ℚ) : ExtendsE s (addShake s a b) :=
  ⟨rfl, rfl, rfl, rfl, rfl, ⟨[], by simp [addShake]⟩⟩

lemma getEnt_eq {s s' : Engine} (h : ExtendsE s s') (i : Nat)
    (hi : i < s.entities.length) : getEnt s' i = getEnt s i := by
  obtain ⟨t, e⟩ := h.ents
  unfold getEnt
  rw [e]
  exact getD_append_left _ _ _ hi

lemma length_le {s s' : Engine} (h : ExtendsE s s') :
    s.entities.length ≤ s'.entities.length := by
  obtain ⟨t, e⟩ := h.ents
  simp [e]

end ExtendsE

@[simp] lemma entities_push (s : Engine) (e : Ent) :
    (push s e).entities = s.entities ++ [e] := rfl

@[simp] lemma entities_updAt (s : Engine) (i : Nat) (f : Ent → Ent) :
    (updAt s i f).entities = s.entities.set i (f (getEnt s i)) := rfl

@[simp] lemma entities_addShake (s : Engine) (a b : ℚ) :
    (addShake s a b).entities = s.entities := rfl

@[simp] lemma entities_randAdv (s : Engine) :
    (randAdv s).entities = s.entities := rfl

@[simp] lemma playerIdx_push (s : Engine) (e : Ent) :
    (push s e).playerIdx = s.playerIdx := rfl

@[simp] lemma playerIdx_updAt (s : Engine) (i : Nat) (f : Ent → Ent) :
    (updAt s i f).playerIdx = s.playerIdx := rfl

@[simp] lemma playerIdx_addShake (s : Engine) (a b : ℚ) :
    (addShake s a b).playerIdx = s.playerIdx := rfl

@[simp] lemma rng_push (s : Engine) (e : Ent) : (push s e).rng = s.rng := rfl

@[simp] lemma rng_updAt (s : Engine) (i : Nat) (f : Ent → Ent) :
    (updAt s i f).rng = s.rng := rfl

@[simp] lemma rng_addShake (s : Engine) (a b : ℚ) :
    (addShake s a b).rng = s.rng := rfl

@[simp] lemma getEnt_addShake (s : Engine) (a b : ℚ) (i : Nat) :
    getEnt (addShake s a b) i = getEnt s i := rfl

@[simp] lemma entities_addScore (s : Engine) (q : ℚ) :
    (addScore s q).entities = s.entities := rfl

@[simp] lemma entities_bossDown (s : Engine) :
    (bossDown s).entities = s.entities := rfl

@[simp] lemma entities_setHitStop (s : Engine) (q : ℚ) :
    (setHitStop s q).entities = s.entities := rfl

@[simp] lemma getEnt_addScore (s : Engine) (q : ℚ) (i : Nat) :
    getEnt (addScore s q) i = getEnt s i := rfl

@[simp] lemma getEnt_bossDown (s : Engine) (i : Nat) :
    getEnt (bossDown s) i = getEnt s i := rfl

@[simp] lemma getEnt_setHitStop (s : Engine) (q : ℚ) (i : Nat) :
    getEnt (setHitStop s q) i = getEnt s i := rfl

@[simp] lemma score_addScore (s : Engine) (q : ℚ) :
    (addScore s q).score = s.score + q := rfl

@[simp] lemma bossActive_bossDown (s : Engine) :
    (bossDown s).bossActive = false := rfl

@[simp] lemma bossNext_bossDown (s : Engine) :
    (bossDown s).bossNextSpawnScore = s.score + 5000 := rfl

@[simp] lemma playerIdx_addScore (s : Engine) (q : ℚ) :
    (addScore s q).playerIdx = s.playerIdx := rfl

@[simp] lemma playerIdx_bossDown (s : Engine) :
    (bossDown s).playerIdx = s.playerIdx := rfl

@[simp] lemma playerIdx_setHitStop (s : Engine) (q : ℚ) :
    (setHitStop s q).playerIdx = s.playerIdx := rfl

lemma spawnFloatingText_player (s : Engine) (pi : Nat) (h : s.playerIdx = some pi) :
    spawnFloatingText s none = mkFloatingText s (getEnt s pi).x ((getEnt s pi).y - 40) := by
  unfold spawnFloatingText
  rw [h]

lemma entities_mkFloatingText (s : Engine) (x y : ℚ) :
    (mkFloatingText s x y).entities =
      s.entities ++ [{ tag := EType.FLOATING_TEXT, x := x, y := y,
                       vx := (s.rng.headD (1/2) - 1/2) * 20, vy := -60, life := 1 }] := rfl

/-- The success branch of triggerSkill for the shield (index 1). -/
lemma triggerShield_success (s : Engine) (pi : Nat)
    (hpi : s.playerIdx = some pi) (hlen : pi < s.entities.length)
    (hm : (getEnt s pi).marked = false)
    (hc : (getEnt s pi).shieldCur ≤ 0) (hmana : 40 ≤ (getEnt s pi).mana) :
    (triggerSkill s 1).entities =
      s.entities.set pi
        { getEnt s pi with mana := (getEnt s pi).mana - 40,
                           shieldCur := (getEnt s pi).shieldMax,
                           shieldActive := true,
                           shieldActiveTimer := (getEnt s pi).shieldDuration }
      ++ [ { tag := EType.SKILL_SHIELD, x := (getEnt s pi).x, y := (getEnt s pi).y,
             radius := 60 },
           { tag := EType.FLOATING_TEXT, x := (getEnt s pi).x,
             y := (getEnt s pi).y - 40,
             vx := (s.rng.headD (1/2) - 1/2) * 20, vy := -60, life := 1 } ] := by
  unfold triggerSkill
  rw [hpi]
  simp only [hm, Bool.false_eq_true, if_false]
  rw [if_pos (by simp [hc, hmana])]
  rw [spawnFloatingText_player _ pi (by simp [hpi])]
  rw [entities_mkFloatingText]
  have hlen2 : pi < (updAt s pi (fun p =>
      { p with mana := p.mana - 40, shieldCur := p.shieldMax,
               shieldActive := true, shieldActiveTimer := p.shieldDuration })).entities.length := by
    rw [length_updAt]; exact hlen
  rw [getEnt_addShake, getEnt_push _ _ _ hlen2, getEnt_updAt_self _ _ _ hlen]
  simp only [hm, entities_addShake, entities_push, entities_updAt, rng_addShake,
    rng_push, rng_updAt, List.append_assoc, List.cons_append, List.nil_append]

/-- The failure branch of triggerSkill for the shield. -/
lemma triggerShield_noop (s : Engine) (pi : Nat)
    (hpi : s.playerIdx = some pi) (hm : (getEnt s pi).marked = false)
    (h : ¬ ((getEnt s pi).shieldCur ≤ 0 ∧ 40 ≤ (getEnt s pi).mana)) :
    triggerSkill s 1 = s := by
  unfold triggerSkill
  rw [hpi]
  simp only [hm, Bool.false_eq_true, if_false]
  have hcond : ¬ ((1 == 1 && decide ((getEnt s pi).shieldCur ≤ 0)
      && decide (40 ≤ (getEnt s pi).mana)) = true) := by
    simp only [Bool.and_eq_true, beq_self_eq_true, true_and, decide_eq_true_eq]
    rintro ⟨h1, h2⟩
    exact h ⟨h1, h2⟩
  rw [if_neg hcond]
  rfl

/-- The success branch of triggerSkill for the gravity well (index 2),
which checks mana against the hardcoded 60 and deducts 60. -/
lemma triggerBlackhole_success (s : Engine) (pi : Nat)
    (hpi : s.playerIdx = some pi) (hlen : pi < s.entities.length)
    (hm : (getEnt s pi).marked = false)
    (hc : (getEnt s pi).blackholeCur ≤ 0) (hmana : 60 ≤ (getEnt s pi).mana) :
    (triggerSkill s 2).entities =
      s.entities.set pi
        { getEnt s pi with mana := (getEnt s pi).mana - 60,
                           blackholeCur := (getEnt s pi).blackholeMax }
      ++ [ { tag := EType.SKILL_BLACKHOLE, x := (getEnt s pi).x,
             y := (getEnt s pi).y - 300 },
           { tag := EType.FLOATING_TEXT, x := (getEnt s pi).x,
             y := (getEnt s pi).y - 40,
             vx := (s.rng.headD (1/2) - 1/2) * 20, vy := -60, life := 1 } ] := by
  unfold triggerSkill
  rw [hpi]
  simp only [hm, Bool.false_eq_true, if_false]
  rw [if_neg (by simp), if_pos (by simp [hc, hmana])]
  rw [spawnFloatingText_player _ pi (by simp [hpi])]
  rw [entities_mkFloatingText]
  have hlen2 : pi < (updAt s pi (fun p =>
      { p with mana := p.mana - 60, blackholeCur := p.blackholeMax })).entities.length := by
    rw [length_updAt]; exact hlen
  rw [getEnt_addShake, getEnt_push _ _ _ hlen2, getEnt_updAt_self _ _ _ hlen]
  simp only [hm, entities_addShake, entities_push, entities_updAt, rng_addShake,
    rng_push, rng_updAt, List.append_assoc, List.cons_append, List.nil_append]

lemma getD_set_self (l : List Ent) (i : Nat) (a : Ent) (h : i < l.length) :
    (l.set i a).getD i default = a := by
  rw [List.getD_eq_getElem?_getD, List.getElem?_set_self h]
  rfl

/-- Read the player back out of the success-branch entity list. -/
lemma getEnt_of_entities_eq (s s' : Engine) (pi : Nat) (p' : Ent) (t : List Ent)
    (h : s'.entities = s.entities.set pi p' ++ t) (hlen : pi < s.entities.length) :
    getEnt s' pi = p' := by
  unfold getEnt
  rw [h, getD_append_left _ _ _ (by simpa using hlen), getD_set_self _ _ _ hlen]

/-- Replacing an element by one with the same predicate value keeps countP. -/
lemma countP_set_same (l : List Ent) (i : Nat) (a : Ent) (pred : Ent → Bool)
    (h : i < l.length) (hpred : pred a = pred (l.getD i default)) :
    (l.set i a).countP pred = l.countP pred := by
  have hgd : l.getD i default = l[i] := by
    rw [List.getD_eq_getElem?_getD, List.getElem?_eq_getElem h]
    rfl
  rw [List.countP_set pred l i a h, hpred, hgd]
  by_cases hb : pred l[i] = true
  · have hpos : 0 < l.countP pred :=
      List.countP_pos.mpr ⟨l[i], List.getElem_mem h, hb⟩
    simp [hb]
    omega
  · simp [hb]

lemma sqrtLt_of_le {q r r2 : ℚ} (h : sqrtLt q r = true) (hle : r ≤ r2) :
    sqrtLt q r2 = true := by
  unfold sqrtLt at h ⊢
  simp only [Bool.and_eq_true, decide_eq_true_eq] at h ⊢
  obtain ⟨h1, h2⟩ := h
  refine ⟨lt_of_lt_of_le h1 hle, lt_of_lt_of_le h2 ?_⟩
  nlinarith

lemma pairBody_shield_bullet (s : Engine) (i j : Nat)
    (ha : (getEnt s i).tag = EType.PLAYER)
    (hsh : (getEnt s i).shieldActive = true)
    (hb : (getEnt s j).tag = EType.BULLET_ENEMY)
    (hdist : sqrtLt (dist2 (getEnt s i) (getEnt s j)) (50 + (getEnt s j).radius) = true) :
    pairBody s i j = updAt s j markEnt := by
  unfold pairBody
  dsimp only
  simp [ha, hb, hsh, isEnemyTag, hdist]

lemma getEnt_createExplosion (s : Engine) (x y : ℚ) (c : ℕ) (sp : ℚ) (i : Nat)
    (hi : i < s.entities.length) :
    getEnt (createExplosion s x y c sp) i = getEnt s i :=
  ExtendsE.getEnt_eq (ExtendsE.createExplosion_ext ..) i hi

lemma getEnt_spawnFloatingText (s : Engine) (pos : Option (ℚ × ℚ)) (i : Nat)
    (hi : i < s.entities.length) :
    getEnt (spawnFloatingText s pos) i = getEnt s i :=
  ExtendsE.getEnt_eq (ExtendsE.spawnFloatingText_ext ..) i hi

lemma length_le_createExplosion (s : Engine) (x y : ℚ) (c : ℕ) (sp : ℚ) :
    s.entities.length ≤ (createExplosion s x y c sp).entities.length :=
  (ExtendsE.createExplosion_ext ..).length_le

lemma length_le_spawnFloatingText (s : Engine) (pos : Option (ℚ × ℚ)) :
    s.entities.length ≤ (spawnFloatingText s pos).entities.length :=
  (ExtendsE.spawnFloatingText_ext ..).length_le

lemma handleCollision_bullet_player (s : Engine) (i j : Nat)
    (hij : ¬ i = j) (hi : i < s.entities.length) (hj : j < s.entities.length)
    (ha : (getEnt s i).tag = EType.PLAYER)
    (hsh : (getEnt s i).shieldActive = false)
    (hb : (getEnt s j).tag = EType.BULLET_ENEMY) :
    (getEnt (handleCollision s i j) i).health = (getEnt s i).health - 10
    ∧ ((getEnt s i).health ≤ 10 → (getEnt (handleCollision s i j) i).marked = true)
    ∧ (¬ ((getEnt s i).health ≤ 10) →
        (getEnt (handleCollision s i j) i).marked = (getEnt s i).marked)
    ∧ (getEnt (handleCollision s i j) j).marked = true := by
  have hj' : ¬ j = i := fun h => hij h.symm
  unfold handleCollision handleCollisionFirst hcDamagePlayer
  dsimp only
  simp [ha, hb, hsh]
  have hlen1 : i < (updAt (updAt s j markEnt) i
      (fun p => { p with health := p.health - 10 })).entities.length := by
    rw [length_updAt, length_updAt]; exact hi
  have hlenj : j < (updAt (updAt s j markEnt) i
      (fun p => { p with health := p.health - 10 })).entities.length := by
    rw [length_updAt, length_updAt]; exact hj
  have hbase_i : getEnt (updAt (updAt s j markEnt) i
      (fun p => { p with health := p.health - 10 })) i
      = { getEnt s i with health := (getEnt s i).health - 10 } := by
    rw [getEnt_updAt_self _ _ _ (by rw [length_updAt]; exact hi),
      getEnt_updAt_ne _ _ _ _ hj']
  have hbase_j : getEnt (updAt (updAt s j markEnt) i
      (fun p => { p with health := p.health - 10 })) j = markEnt (getEnt s j) := by
    rw [getEnt_updAt_ne _ _ _ _ hij, getEnt_updAt_self _ _ _ hj]
  set X := updAt (updAt s j markEnt) i (fun p => { p with health := p.health - 10 }) with hX
  set F := spawnFloatingText X (some ((getEnt s i).x, (getEnt s i).y)) with hF
  set C := createExplosion F (getEnt s i).x (getEnt s i).y 20 400 with hC
  set S := setHitStop (addShake C 15 (2/5)) ((20 : ℚ)⁻¹) with hS
  have hlen2 : i < F.entities.length :=
    lt_of_lt_of_le hlen1 (length_le_spawnFloatingText ..)
  have hlen3 : i < C.entities.length :=
    lt_of_lt_of_le hlen2 (length_le_createExplosion ..)
  have hlenj2 : j < F.entities.length :=
    lt_of_lt_of_le hlenj (length_le_spawnFloatingText ..)
  have hlenj3 : j < C.entities.length :=
    lt_of_lt_of_le hlenj2 (length_le_createExplosion ..)
  have hlenS : i < S.entities.length := by
    rw [hS]; simpa using hlen3
  have hlenSj : j < S.entities.length := by
    rw [hS]; simpa using hlenj3
  have hSi : getEnt S i = { getEnt s i with health := (getEnt s i).health - 10 } := by
    rw [hS, getEnt_setHitStop, getEnt_addShake, hC,
      getEnt_createExplosion _ _ _ _ _ _ hlen2, hF,
      getEnt_spawnFloatingText _ _ _ hlen1, hbase_i]
  have hSj : getEnt S j = markEnt (getEnt s j) := by
    rw [hS, getEnt_setHitStop, getEnt_addShake, hC,
      getEnt_createExplosion _ _ _ _ _ _ hlenj2, hF,
      getEnt_spawnFloatingText _ _ _ hlenj, hbase_j]
  have hlenS2 : i < (updAt S i markEnt).entities.length := by
    rw [length_updAt]; exact hlenS
  have hlenSj2 : j < (updAt S i markEnt).entities.length := by
    rw [length_updAt]; exact hlenSj
  refine ⟨?_, ?_, ?_, ?_⟩
  · by_cases hh : (getEnt s i).health ≤ 10
    · rw [if_pos hh, getEnt_createExplosion _ _ _ _ _ _ hlenS2,
        getEnt_updAt_self _ _ _ hlenS, hSi]
      rfl
    · rw [if_neg hh, hSi]
  · intro hh
    rw [if_pos hh, getEnt_createExplosion _ _ _ _ _ _ hlenS2,
      getEnt_updAt_self _ _ _ hlenS]
    rfl
  · intro hh
    rw [if_neg (not_le.mpr hh), hSi]
  · by_cases hh : (getEnt s i).health ≤ 10
    · rw [if_pos hh, getEnt_createExplosion _ _ _ _ _ _ hlenSj2,
        getEnt_updAt_ne _ _ _ _ hij, hSj]
      rfl
    · rw [if_neg hh, hSj]
      rfl

/-- Picking up a HEALTH item inside pickup range heals the player by 30,
clamped at maxHealth by the Math.min in the source. -/
lemma itemPickup_health_clamp (s : Engine) (ii pi : Nat)
    (hne : ¬ ii = pi) (hii : ii < s.entities.length) (hpi : pi < s.entities.length)
    (hk : (getEnt s ii).itemKind = ItemKind.HEALTH)
    (hd : sqrtLt (dist2 (getEnt s ii) (getEnt s pi))
        ((getEnt s pi).radius + (getEnt s ii).radius) = true) :
    (getEnt (itemPickup s ii pi) pi).health
      = min (getEnt s pi).maxHealth ((getEnt s pi).health + 30) := by
  unfold itemPickup
  dsimp only
  simp only [hd, hk, if_true]
  have hlen1 : pi < (updAt (updAt s ii markEnt) pi
      (fun p => { p with health := min p.maxHealth (p.health + 30) })).entities.length := by
    rw [length_updAt, length_updAt]; exact hpi
  have hlen2 : pi < (spawnFloatingText (updAt (updAt s ii markEnt) pi
      (fun p => { p with health := min p.maxHealth (p.health + 30) }))
      (some ((getEnt s ii).x, (getEnt s ii).y))).entities.length :=
    lt_of_lt_of_le hlen1 (length_le_spawnFloatingText ..)
  rw [getEnt_createExplosion _ _ _ _ _ _ hlen2,
    getEnt_spawnFloatingText _ _ _ hlen1,
    getEnt_updAt_self _ _ _ (by rw [length_updAt]; exact hpi),
    getEnt_updAt_ne _ _ _ _ hne]

lemma dist2_comm (a b : Ent) : dist2 a b = dist2 b a := by
  unfold dist2; ring

/-- The shield branch of the scan, player first in the pair: an enemy bullet
within the shield radius is consumed and nothing else changes. -/
lemma pairBody_shield_bullet_rev (s : Engine) (i j : Nat)
    (ha : (getEnt s i).tag = EType.PLAYER)
    (hsh : (getEnt s i).shieldActive = true)
    (hb : (getEnt s j).tag = EType.BULLET_ENEMY)
    (hdist : sqrtLt (dist2 (getEnt s j) (getEnt s i)) (50 + (getEnt s j).radius) = true) :
    pairBody s j i = updAt s j markEnt := by
  unfold pairBody
  dsimp only
  simp [ha, hb, hsh, isEnemyTag, hdist]

/-- The shield branch of the scan for enemy contact: within the shield radius
the pair test does nothing at all. -/
lemma pairBody_shield_enemy (s : Engine) (i j : Nat)
    (ha : (getEnt s i).tag = EType.PLAYER)
    (hsh : (getEnt s i).shieldActive = true)
    (hb : isEnemyTag (getEnt s j) = true)
    (hdist : sqrtLt (dist2 (getEnt s i) (getEnt s j)) (50 + (getEnt s j).radius) = true) :
    pairBody s i j = s := by
  unfold isEnemyTag at hb
  unfold pairBody
  dsimp only
  cases htag : (getEnt s j).tag <;> rw [htag] at hb <;> simp at hb <;>
    simp [ha, hsh, htag, isEnemyTag, hdist]

/-- The shield branch for enemy contact, enemy first in the pair. -/
lemma pairBody_shield_enemy_rev (s : Engine) (i j : Nat)
    (ha : (getEnt s i).tag = EType.PLAYER)
    (hsh : (getEnt s i).shieldActive = true)
    (hb : isEnemyTag (getEnt s j) = true)
    (hdist : sqrtLt (dist2 (getEnt s j) (getEnt s i)) (50 + (getEnt s j).radius) = true) :
    pairBody s j i = s := by
  unfold isEnemyTag at hb
  unfold pairBody
  dsimp only
  cases htag : (getEnt s j).tag <;> rw [htag] at hb <;> simp at hb <;>
    simp [ha, hsh, htag, isEnemyTag, hdist]

/-- Every entity surviving the removal sweep is unmarked. -/
lemma sweep_unmarks (s : Engine) : ∀ e ∈ (sweep s).entities, e.marked = false := by
  intro e he
  unfold sweep at he
  simp only [List.mem_filter, Bool.not_eq_true'] at he
  exact he.2

lemma scanInner_done (fuel : ℕ) (s : Engine) (log : List PairTest) (i j : Nat)
    (hj : ¬ j < s.entities.length) :
    scanInner (fuel + 1) s log i j = some (s, log) := by
  simp only [scanInner]
  simp [hj]

lemma scanInner_skip (fuel : ℕ) (s : Engine) (log : List PairTest) (i j : Nat)
    (hj : j < s.entities.length) (hm : (getEnt s j).marked = true) :
    scanInner (fuel + 1) s log i j = scanInner fuel s log i (j + 1) := by
  simp only [scanInner]
  simp [hj, hm]

lemma scanInner_test (fuel : ℕ) (s : Engine) (log : List PairTest) (i j : Nat)
    (hj : j < s.entities.length) (hm : (getEnt s j).marked = false) :
    scanInner (fuel + 1) s log i j
      = scanInner fuel (pairBody s i j)
          (log ++ [⟨i, j, (getEnt s i).marked⟩]) i (j + 1) := by
  simp only [scanInner]
  simp [hj, hm]

lemma scanOuter_done (fuel innerFuel : ℕ) (s : Engine) (log : List PairTest) (i : Nat)
    (hi : ¬ i < s.entities.length) :
    scanOuter (fuel + 1) innerFuel s log i = some (s, log) := by
  simp only [scanOuter]
  simp [hi]

lemma scanOuter_skip (fuel innerFuel : ℕ) (s : Engine) (log : List PairTest) (i : Nat)
    (hi : i < s.entities.length) (hm : (getEnt s i).marked = true) :
    scanOuter (fuel + 1) innerFuel s log i = scanOuter fuel innerFuel s log (i + 1) := by
  simp only [scanOuter]
  simp [hi, hm]

lemma scanOuter_row (fuel innerFuel : ℕ) (s s' : Engine) (log log' : List PairTest)
    (i : Nat) (hi : i < s.entities.length) (hm : (getEnt s i).marked = false)
    (hinner : scanInner innerFuel s log i (i + 1) = some (s', log')) :
    scanOuter (fuel + 1) innerFuel s log i = scanOuter fuel innerFuel s' log' (i + 1) := by
  simp only [scanOuter]
  simp [hi, hm, hinner]

/-- The shockwave branch of the scan, wave first in the pair: an enemy bullet
inside the ring band is consumed. -/
lemma pairBody_wave_bullet (s : Engine) (i j : Nat)
    (ha : (getEnt s i).tag = EType.SKILL_SHOCKWAVE)
    (hb : (getEnt s j).tag = EType.BULLET_ENEMY)
    (h1 : sqrtGt (dist2 (getEnt s i) (getEnt s j)) ((getEnt s i).radius - 60) = true)
    (h2 : sqrtLt (dist2 (getEnt s i) (getEnt s j)) ((getEnt s i).radius + 60) = true) :
    pairBody s i j = updAt s j markEnt := by
  unfold pairBody
  dsimp only
  simp [ha, hb, isEnemyTag, h1, h2]

/-- The shockwave branch of the scan, wave second in the pair. -/
lemma pairBody_wave_bullet_rev (s : Engine) (i j : Nat)
    (ha : (getEnt s i).tag = EType.BULLET_ENEMY)
    (hb : (getEnt s j).tag = EType.SKILL_SHOCKWAVE)
    (h1 : sqrtGt (dist2 (getEnt s j) (getEnt s i)) ((getEnt s j).radius - 60) = true)
    (h2 : sqrtLt (dist2 (getEnt s j) (getEnt s i)) ((getEnt s j).radius + 60) = true) :
    pairBody s i j = updAt s i markEnt := by
  unfold pairBody
  dsimp only
  simp [ha, hb, isEnemyTag, h1, h2]

/-- Two enemy bullets never interact: the pair falls through to the generic
distance test and handleCollision, which has no branch for a pair without a
player or an enemy. -/
lemma pairBody_enemy_bullets (s : Engine) (i j : Nat)
    (ha : (getEnt s i).tag = EType.BULLET_ENEMY)
    (hb : (getEnt s j).tag = EType.BULLET_ENEMY) :
    pairBody s i j = s := by
  unfold pairBody handleCollision handleCollisionFirst
  dsimp only
  simp [ha, hb, isEnemyTag]

/-! ## Claims -/

/-- C2: triggering the shield (skill 1) succeeds exactly when the shield's
cooldown-remaining is ≤ 0 and the player's mana is at least the cost 40.
On success, mana decreases by exactly 40, the cooldown-remaining is reset to
its maximum, the shield becomes active, and the entity collection gains
exactly the Shield effect entity plus the floating text echo.  On any other
trigger the call is a silent no-op: the engine state — mana, cooldowns and
the entity collection included — is unchanged. -/
theorem shield_trigger_gating (s : Engine) (pi : Nat)
    (hpi : s.playerIdx = some pi) (hlen : pi < s.entities.length)
    (hm : (getEnt s pi).marked = false) :
    (((getEnt s pi).shieldCur ≤ 0 ∧ 40 ≤ (getEnt s pi).mana) →
      (getEnt (triggerSkill s 1) pi).mana = (getEnt s pi).mana - 40 ∧
      (getEnt (triggerSkill s 1) pi).shieldCur = (getEnt s pi).shieldMax ∧
      (getEnt (triggerSkill s 1) pi).shieldActive = true ∧
      (triggerSkill s 1).entities =
        s.entities.set pi
          { getEnt s pi with mana := (getEnt s pi).mana - 40,
                             shieldCur := (getEnt s pi).shieldMax,
                             shieldActive := true,
                             shieldActiveTimer := (getEnt s pi).shieldDuration }
        ++ [ { tag := EType.SKILL_SHIELD, x := (getEnt s pi).x,
               y := (getEnt s pi).y, radius := 60 },
             { tag := EType.FLOATING_TEXT, x := (getEnt s pi).x,
               y := (getEnt s pi).y - 40,
               vx := (s.rng.headD (1/2) - 1/2) * 20, vy := -60, life := 1 } ]) ∧
    (¬ ((getEnt s pi).shieldCur ≤ 0 ∧ 40 ≤ (getEnt s pi).mana) →
      triggerSkill s 1 = s) := by
  constructor
  · rintro ⟨hc, hmana⟩
    have he := triggerShield_success s pi hpi hlen hm hc hmana
    have hg := getEnt_of_entities_eq s (triggerSkill s 1) pi _ _ he hlen
    exact ⟨by rw [hg], by rw [hg], by rw [hg], he⟩
  · intro h
    exact triggerShield_noop s pi hpi hm h

/-- Witness for C2: with mana 30 (below the cost 40) the shield trigger is a
no-op on the whole engine state. -/
theorem shield_trigger_gating_witness :
    triggerSkill { entities := [{ mkPlayer 400 500 with mana := 30 }],
                   playerIdx := some 0 } 1
      = { entities := [{ mkPlayer 400 500 with mana := 30 }],
          playerIdx := some 0 } := by
  refine (shield_trigger_gating
    { entities := [{ mkPlayer 400 500 with mana := 30 }], playerIdx := some 0 }
    0 rfl (by norm_num) rfl).2 ?_
  rintro ⟨-, hmana⟩
  have h30 : (getEnt { entities := [{ mkPlayer 400 500 with mana := 30 }], playerIdx := some 0 } 0).mana = 30 := rfl
  rw [h30] at hmana
  norm_num at hmana

/-- C3 counterexample: triggering the gravity well with mana 80 and
cooldown-remaining 0 leaves the player with mana 20, not the 10 the claim
predicts from the declared cost 70 (the engine deducts a hardcoded 60). -/
theorem gravity_well_cost_counterexample :
    (getEnt (triggerSkill { entities := [{ mkPlayer 400 500 with mana := 80 }],
                            playerIdx := some 0 } 2) 0).mana = 20
    ∧ ¬ ((20 : ℚ) = 80 - 70) := by
  constructor
  · have he := triggerBlackhole_success
      { entities := [{ mkPlayer 400 500 with mana := 80 }], playerIdx := some 0 }
      0 rfl (by norm_num) rfl (by rw [show (getEnt { entities := [{ mkPlayer 400 500 with mana := 80 }], playerIdx := some 0 } 0).blackholeCur = 0 from rfl]) (by rw [show (getEnt { entities := [{ mkPlayer 400 500 with mana := 80 }], playerIdx := some 0 } 0).mana = 80 from rfl]; norm_num)
    have hg := getEnt_of_entities_eq _ _ 0 _ _ he (by norm_num)
    rw [hg]
    rw [show (getEnt { entities := [{ mkPlayer 400 500 with mana := 80 }], playerIdx := some 0 } 0).mana = 80 from rfl]
    norm_num
  · norm_num

/-- C3 (amended): triggering the gravity well (skill 2) with mana 80 while
its cooldown-remaining is ≤ 0 succeeds: the cooldown-remaining is reset to
its maximum and exactly one BlackHole entity is added to the live
collection; but the engine checks mana against the hardcoded 60 and deducts
60 (the cost 70 declared in the skills record of the alternative Player
module is never read), so the player's mana afterwards equals 20, not 10. -/
theorem gravity_well_trigger (s : Engine) (pi : Nat)
    (hpi : s.playerIdx = some pi) (hlen : pi < s.entities.length)
    (hm : (getEnt s pi).marked = false)
    (hmana : (getEnt s pi).mana = 80) (hc : (getEnt s pi).blackholeCur ≤ 0) :
    (getEnt (triggerSkill s 2) pi).mana = 20 ∧
    (getEnt (triggerSkill s 2) pi).blackholeCur = (getEnt s pi).blackholeMax ∧
    (triggerSkill s 2).entities.countP (fun e => e.tag == EType.SKILL_BLACKHOLE)
      = s.entities.countP (fun e => e.tag == EType.SKILL_BLACKHOLE) + 1 := by
  have hmana60 : 60 ≤ (getEnt s pi).mana := by rw [hmana]; norm_num
  have he := triggerBlackhole_success s pi hpi hlen hm hc hmana60
  have hg := getEnt_of_entities_eq s (triggerSkill s 2) pi _ _ he hlen
  have hcount := countP_set_same s.entities pi
      { getEnt s pi with mana := (getEnt s pi).mana - 60,
                         blackholeCur := (getEnt s pi).blackholeMax }
      (fun e => e.tag == EType.SKILL_BLACKHOLE) hlen rfl
  refine ⟨by rw [hg]; simp; rw [hmana]; norm_num, by rw [hg], ?_⟩
  rw [he, List.countP_append, hcount]
  rfl

/-- Witness for C3's amended theorem at a concrete engine with mana 80. -/
theorem gravity_well_trigger_witness :
    (getEnt (triggerSkill { entities := [{ mkPlayer 400 500 with mana := 80 }],
                            playerIdx := some 0 } 2) 0).mana = 20 ∧
    (getEnt (triggerSkill { entities := [{ mkPlayer 400 500 with mana := 80 }],
                            playerIdx := some 0 } 2) 0).blackholeCur
      = (getEnt { entities := [{ mkPlayer 400 500 with mana := 80 }],
                  playerIdx := some 0 } 0).blackholeMax ∧
    (triggerSkill { entities := [{ mkPlayer 400 500 with mana := 80 }],
                    playerIdx := some 0 } 2).entities.countP
        (fun e => e.tag == EType.SKILL_BLACKHOLE)
      = ({ entities := [{ mkPlayer 400 500 with mana := 80 }],
           playerIdx := some 0 } : Engine).entities.countP
          (fun e => e.tag == EType.SKILL_BLACKHOLE) + 1 :=
  gravity_well_trigger
    { entities := [{ mkPlayer 400 500 with mana := 80 }], playerIdx := some 0 }
    0 rfl (by norm_num) rfl rfl
    (by rw [show (getEnt { entities := [{ mkPlayer 400 500 with mana := 80 }], playerIdx := some 0 } 0).blackholeCur = 0 from rfl])

namespace JsNum

@[simp] lemma mul_fin_fin (a b : ℚ) : mul (fin a) (fin b) = fin (a * b) := rfl

@[simp] lemma add_fin_fin (a b : ℚ) : add (fin a) (fin b) = fin (a + b) := rfl

@[simp] lemma sub_fin_fin (a b : ℚ) : sub (fin a) (fin b) = fin (a - b) := rfl

@[simp] lemma neg_fin (a : ℚ) : neg (fin a) = fin (-a) := rfl

@[simp] lemma lt_fin_fin (a b : ℚ) : lt (fin a) (fin b) = decide (a < b) := rfl

@[simp] lemma mul_nan_right (a : JsNum) : mul a nan = nan := by cases a <;> rfl

@[simp] lemma add_nan_right (a : JsNum) : add a nan = nan := by cases a <;> rfl

@[simp] lemma max_nan_right (a : JsNum) : max a nan = nan := by cases a <;> rfl

@[simp] lemma max_nan_left (a : JsNum) : max nan a = nan := by cases a <;> rfl

@[simp] lemma lt_nan_right (a : JsNum) : lt a nan = false := by cases a <;> rfl

@[simp] lemma lt_nan_left (a : JsNum) : lt nan a = false := by cases a <;> rfl

@[simp] lemma sqrt_fin (q : ℚ) :
    sqrt (fin q) = if q < 0 then nan else fin (Rat.sqrt q) := rfl

end JsNum

open JsNum in
/-- In the degenerate case where the target's speed equals the missile's
speed the intercept quadratic's leading coefficient is exactly zero, the
discriminant is the nonnegative b*b, and both roots are divided by zero:
the chosen intercept time is NaN and the NaN propagates into both returned
coordinates (no fallback catches it). -/
lemma intercept_equal_speed (px py vx vy mx my s : ℚ)
    (h : vx * vx + vy * vy = s * s) :
    calculateIntercept ⟨fin px, fin py⟩ ⟨fin vx, fin vy⟩ ⟨fin mx, fin my⟩ (fin s)
      = ⟨nan, nan⟩ := by
  have ha0 : vx * vx + vy * vy - s * s = 0 := by rw [h]; ring
  simp only [calculateIntercept, sub_fin_fin, add_fin_fin, mul_fin_fin, neg_fin, ha0]
  set B : ℚ := 2 * ((px - mx) * vx + (py - my) * vy) with hB
  have hdisc : B * B - 4 * 0 * ((px - mx) * (px - mx) + (py - my) * (py - my))
      = B * B := by ring
  rw [hdisc]
  have hnn : ¬ (B * B < 0) := not_lt.mpr (mul_self_nonneg B)
  rw [lt_fin_fin]
  simp only [decide_eq_true_eq, if_neg hnn, sqrt_fin]
  have hsq : Rat.sqrt (B * B) = |B| := Rat.sqrt_eq B
  rw [hsq]
  rcases lt_trichotomy B 0 with hb | hb | hb
  · rw [abs_of_neg hb]
    have e1 : -B + -B ≠ 0 := by intro hc; nlinarith
    have e2 : (0:ℚ) < -B + -B := by nlinarith
    have e3 : -B - -B = 0 := by ring
    simp [JsNum.div, JsNum.max, JsNum.min, JsNum.lt, e3, e1, e2, if_pos, if_neg]
  · rw [hb]
    norm_num [JsNum.div, JsNum.max, JsNum.min, JsNum.lt]
  · rw [abs_of_pos hb]
    have e1 : -B + B = 0 := by ring
    have e2 : -B - B ≠ 0 := by intro hc; nlinarith
    have e3 : ¬ ((0:ℚ) < -B - B) := by intro hc; nlinarith
    simp [JsNum.div, JsNum.max, JsNum.min, JsNum.lt, e1, e2, e3]

open JsNum in
/-- The negative-discriminant fallback of calculateIntercept: when the
quadratic has no real solution the function returns the target's current
position, which is finite when the inputs are. -/
lemma intercept_neg_disc (px py vx vy mx my s : ℚ)
    (h : (2 * ((px - mx) * vx + (py - my) * vy)) * (2 * ((px - mx) * vx + (py - my) * vy))
         < 4 * (vx * vx + vy * vy - s * s)
           * ((px - mx) * (px - mx) + (py - my) * (py - my))) :
    calculateIntercept ⟨fin px, fin py⟩ ⟨fin vx, fin vy⟩ ⟨fin mx, fin my⟩ (fin s)
      = ⟨fin px, fin py⟩ := by
  simp only [calculateIntercept, sub_fin_fin, add_fin_fin, mul_fin_fin, lt_fin_fin]
  have hlt : (2 * ((px - mx) * vx + (py - my) * vy))
      * (2 * ((px - mx) * vx + (py - my) * vy))
      - 4 * (vx * vx + vy * vy - s * s)
        * ((px - mx) * (px - mx) + (py - my) * (py - my)) < 0 := by linarith
  simp [hlt]

/-- C8 counterexample: with the target at (0, 1) moving at (0, 3) and the
missile at the origin with speed 3 (equal speeds), the intercept point
returned by calculateIntercept is NaN in both coordinates — the
aim-at-current-position fallback does not catch the degenerate quadratic,
so the returned point is not finite and the NaN would flow on into the
missile's rotation update. -/
theorem intercept_nan_counterexample :
    calculateIntercept ⟨JsNum.fin 0, JsNum.fin 1⟩ ⟨JsNum.fin 0, JsNum.fin 3⟩
        ⟨JsNum.fin 0, JsNum.fin 0⟩ (JsNum.fin 3) = ⟨JsNum.nan, JsNum.nan⟩
    ∧ JsNum.isFinite (calculateIntercept ⟨JsNum.fin 0, JsNum.fin 1⟩
        ⟨JsNum.fin 0, JsNum.fin 3⟩ ⟨JsNum.fin 0, JsNum.fin 0⟩ (JsNum.fin 3)).x
      = false := by
  have h := intercept_equal_speed 0 1 0 3 0 0 3 (by norm_num)
  exact ⟨h, by rw [h]; rfl⟩

/-- C8 (amended): the guard in calculateIntercept covers only the
negative-discriminant case (and the negative-time case), where the target's
current position — finite for finite inputs — is returned; it does not
cover the degenerate case in which the target's speed equals the missile's
speed: there the division by the zero leading coefficient makes the chosen
intercept time NaN, and the returned intercept point has NaN in both
coordinates, which then feeds the missile's rotation computation. -/
theorem intercept_fallback_and_degenerate (px py vx vy mx my s : ℚ) :
    ((2 * ((px - mx) * vx + (py - my) * vy)) * (2 * ((px - mx) * vx + (py - my) * vy))
       < 4 * (vx * vx + vy * vy - s * s)
         * ((px - mx) * (px - mx) + (py - my) * (py - my)) →
      calculateIntercept ⟨JsNum.fin px, JsNum.fin py⟩ ⟨JsNum.fin vx, JsNum.fin vy⟩
          ⟨JsNum.fin mx, JsNum.fin my⟩ (JsNum.fin s) = ⟨JsNum.fin px, JsNum.fin py⟩)
    ∧ (vx * vx + vy * vy = s * s →
      calculateIntercept ⟨JsNum.fin px, JsNum.fin py⟩ ⟨JsNum.fin vx, JsNum.fin vy⟩
          ⟨JsNum.fin mx, JsNum.fin my⟩ (JsNum.fin s) = ⟨JsNum.nan, JsNum.nan⟩) :=
  ⟨intercept_neg_disc px py vx vy mx my s, intercept_equal_speed px py vx vy mx my s⟩

/-- Witness for C8's amended theorem: a concrete no-real-solution input
falls back to the target position, and a concrete equal-speed input yields
the NaN point. -/
theorem intercept_fallback_witness :
    calculateIntercept ⟨JsNum.fin 100, JsNum.fin 0⟩ ⟨JsNum.fin 0, JsNum.fin 10⟩
        ⟨JsNum.fin 0, JsNum.fin 0⟩ (JsNum.fin 5) = ⟨JsNum.fin 100, JsNum.fin 0⟩
    ∧ calculateIntercept ⟨JsNum.fin 0, JsNum.fin 2⟩ ⟨JsNum.fin 5, JsNum.fin 0⟩
        ⟨JsNum.fin 0, JsNum.fin 0⟩ (JsNum.fin 5) = ⟨JsNum.nan, JsNum.nan⟩ :=
  ⟨(intercept_fallback_and_degenerate 100 0 0 10 0 0 5).1 (by norm_num),
   (intercept_fallback_and_degenerate 0 2 5 0 0 0 5).2 (by norm_num)⟩

/-- C5: the charge-weapon commit rule of the LASER branch.  Under the
invariant 0 ≤ charge ≤ 100 (established by the step itself from a fresh
charge of 0): a beam is spawned only in a step where the fire input is
released, the weapon was charging, no beam already exists, and the charge
level is exactly 100; releasing at any charge level below 100 never spawns,
and on release the charge level never increases (it decays toward 0); the
step keeps the charge within [0, 100]. -/
theorem charge_weapon_commit (isFiring isCharging : Bool)
    (chargeLevel chargeRate dt : ℚ) (existingBeam : Bool)
    (hcl0 : 0 ≤ chargeLevel) (hcl : chargeLevel ≤ 100)
    (hdt : 0 ≤ dt) (hcr : 0 ≤ chargeRate) :
    ((laserWeaponStep isFiring isCharging chargeLevel chargeRate dt existingBeam).spawned = true →
      isFiring = false ∧ isCharging = true ∧ chargeLevel = 100 ∧ existingBeam = false)
    ∧ (chargeLevel < 100 →
      (laserWeaponStep isFiring isCharging chargeLevel chargeRate dt existingBeam).spawned = false)
    ∧ (isFiring = false →
      (laserWeaponStep isFiring isCharging chargeLevel chargeRate dt existingBeam).chargeLevel
        ≤ chargeLevel)
    ∧ 0 ≤ (laserWeaponStep isFiring isCharging chargeLevel chargeRate dt existingBeam).chargeLevel
    ∧ (laserWeaponStep isFiring isCharging chargeLevel chargeRate dt existingBeam).chargeLevel ≤ 100 := by
  have hprod : 0 ≤ chargeRate * dt := mul_nonneg hcr hdt
  cases isFiring with
  | true =>
      refine ⟨by simp [laserWeaponStep], by simp [laserWeaponStep], ?_, ?_, ?_⟩
      · intro hco; cases hco
      · simp only [laserWeaponStep, if_true]
        exact le_min (by norm_num) (by linarith)
      · simp only [laserWeaponStep, if_true]
        exact min_le_left _ _
  | false =>
      have hstep : laserWeaponStep false isCharging chargeLevel chargeRate dt existingBeam
          = { isCharging := false,
              chargeLevel := Max.max 0
                ((if (isCharging && decide (100 ≤ chargeLevel) && !existingBeam) then 0
                  else chargeLevel) - chargeRate * dt * 2),
              spawned := isCharging && decide (100 ≤ chargeLevel) && !existingBeam } := rfl
      rw [hstep]
      refine ⟨?_, ?_, ?_, le_max_left _ _, ?_⟩
      · intro hs
        simp only [Bool.and_eq_true, Bool.not_eq_true', decide_eq_true_eq] at hs
        exact ⟨rfl, hs.1.1, le_antisymm hcl hs.1.2, hs.2⟩
      · intro hlt
        have hno : ¬ (100 ≤ chargeLevel) := by linarith
        simp [hno]
      · intro _
        have h2 : 0 ≤ chargeRate * dt * 2 := by linarith
        split
        · exact max_le hcl0 (by linarith)
        · exact max_le hcl0 (by linarith)
      · have h2 : 0 ≤ chargeRate * dt * 2 := by linarith
        split
        · exact max_le (by norm_num) (by linarith)
        · exact max_le (by norm_num) (by linarith)

/-- Witness for C5 at the released-at-60 scenario: no beam spawns and the
charge decays. -/
theorem charge_weapon_commit_witness :
    (laserWeaponStep false true 60 100 (1/100) false).spawned = false
    ∧ (laserWeaponStep false true 60 100 (1/100) false).chargeLevel ≤ 60 := by
  have h := charge_weapon_commit false true 60 100 (1/100) false
    (by norm_num) (by norm_num) (by norm_num) (by norm_num)
  exact ⟨h.2.1 (by norm_num), h.2.2.1 rfl⟩

lemma marked_gainXp (p : Ent) (amt : ℚ) : (gainXp p amt).marked = p.marked := by
  unfold gainXp
  dsimp only
  split <;> rfl

@[simp] lemma bossActive_grantXp (s : Engine) (amt : ℚ) :
    (grantXp s amt).bossActive = s.bossActive := by
  unfold grantXp
  cases s.playerIdx <;> rfl

@[simp] lemma bossNext_grantXp (s : Engine) (amt : ℚ) :
    (grantXp s amt).bossNextSpawnScore = s.bossNextSpawnScore := by
  unfold grantXp
  cases s.playerIdx <;> rfl

@[simp] lemma score_grantXp (s : Engine) (amt : ℚ) :
    (grantXp s amt).score = s.score := by
  unfold grantXp
  cases s.playerIdx <;> rfl

lemma getEnt_updAt_marked (s : Engine) (k i : Nat) (f : Ent → Ent)
    (hf : ∀ e, (f e).marked = e.marked) :
    (getEnt (updAt s k f) i).marked = (getEnt s i).marked := by
  by_cases hk : k = i
  · subst hk
    by_cases hl : k < s.entities.length
    · rw [getEnt_updAt_self _ _ _ hl, hf]
    · have hset : (updAt s k f).entities = s.entities := by
        show s.entities.set k (f (s.entities.getD k default)) = s.entities
        exact List.set_eq_of_length_le (le_of_not_lt hl)
      show ((updAt s k f).entities.getD k default).marked = _
      rw [hset]
      rfl
  · rw [getEnt_updAt_ne _ _ _ _ hk]

lemma getEnt_grantXp_marked (s : Engine) (amt : ℚ) (i : Nat) :
    (getEnt (grantXp s amt) i).marked = (getEnt s i).marked := by
  unfold grantXp
  cases hpp : s.playerIdx with
  | none => rfl
  | some pi => exact getEnt_updAt_marked s pi i _ (fun e => marked_gainXp e amt)

/-- After a non-marked kill, the enemy at index i is marked. -/
lemma killEnemy_marks (s : Engine) (i : Nat)
    (hm : (getEnt s i).marked = false) (hlen : i < s.entities.length) :
    (getEnt (killEnemy s i) i).marked = true := by
  unfold killEnemy
  dsimp only
  rw [hm]
  simp only [Bool.false_eq_true, if_false]
  rw [getEnt_grantXp_marked]
  have h1 : (getEnt (addScore (updAt s i markEnt) (getEnt s i).scoreValue) i).marked = true := by
    rw [getEnt_addScore, getEnt_updAt_self _ _ _ hlen]
    rfl
  have hl1 : i < (addScore (updAt s i markEnt) (getEnt s i).scoreValue).entities.length := by
    rw [entities_addScore, length_updAt]; exact hlen
  have hC : ExtendsE (addScore (updAt s i markEnt) (getEnt s i).scoreValue)
      (createExplosion (addScore (updAt s i markEnt) (getEnt s i).scoreValue)
        (getEnt s i).x (getEnt s i).y 15 300) := ExtendsE.createExplosion_ext ..
  have hl2 : i < (createExplosion (addScore (updAt s i markEnt) (getEnt s i).scoreValue)
      (getEnt s i).x (getEnt s i).y 15 300).entities.length :=
    Nat.lt_of_lt_of_le hl1 hC.length_le
  split
  · have hB : ExtendsE (addShake (bossDown (createExplosion
        (addScore (updAt s i markEnt) (getEnt s i).scoreValue)
        (getEnt s i).x (getEnt s i).y 15 300)) 30 2)
        (bossDrops (addShake (bossDown (createExplosion
          (addScore (updAt s i markEnt) (getEnt s i).scoreValue)
          (getEnt s i).x (getEnt s i).y 15 300)) 30 2)
          (getEnt s i).x (getEnt s i).y 5) := ExtendsE.bossDrops_ext ..
    rw [ExtendsE.getEnt_eq hB i (by simpa using hl2)]
    rw [getEnt_addShake, getEnt_bossDown, ExtendsE.getEnt_eq hC i hl1]
    exact h1
  · have hD : ExtendsE (createExplosion (addScore (updAt s i markEnt) (getEnt s i).scoreValue)
        (getEnt s i).x (getEnt s i).y 15 300)
        (dropItem (createExplosion (addScore (updAt s i markEnt) (getEnt s i).scoreValue)
          (getEnt s i).x (getEnt s i).y 15 300) (getEnt s i).x (getEnt s i).y) :=
      ExtendsE.dropItem_ext ..
    rw [ExtendsE.getEnt_eq hD i hl2, ExtendsE.getEnt_eq hC i hl1]
    exact h1

/-- A kill of an already-marked enemy is a complete no-op. -/
lemma killEnemy_marked_noop (s : Engine) (i : Nat)
    (hm : (getEnt s i).marked = true) : killEnemy s i = s := by
  unfold killEnemy
  dsimp only
  rw [hm]
  rfl

/-- The boss-kill effects on the scheduler state. -/
lemma killEnemy_boss_effects (s : Engine) (i : Nat)
    (hm : (getEnt s i).marked = false) (hb : (getEnt s i).isBoss = true) :
    (killEnemy s i).bossActive = false ∧
    (killEnemy s i).bossNextSpawnScore
      = s.score + (getEnt s i).scoreValue + 5000 := by
  unfold killEnemy
  dsimp only
  rw [hm]
  simp only [Bool.false_eq_true, if_false, hb, if_true]
  have hC : ExtendsE (addScore (updAt s i markEnt) (getEnt s i).scoreValue)
      (createExplosion (addScore (updAt s i markEnt) (getEnt s i).scoreValue)
        (getEnt s i).x (getEnt s i).y 15 300) := ExtendsE.createExplosion_ext ..
  have hB : ExtendsE (addShake (bossDown (createExplosion
      (addScore (updAt s i markEnt) (getEnt s i).scoreValue)
      (getEnt s i).x (getEnt s i).y 15 300)) 30 2)
      (bossDrops (addShake (bossDown (createExplosion
        (addScore (updAt s i markEnt) (getEnt s i).scoreValue)
        (getEnt s i).x (getEnt s i).y 15 300)) 30 2)
        (getEnt s i).x (getEnt s i).y 5) := ExtendsE.bossDrops_ext ..
  constructor
  · rw [bossActive_grantXp, hB.bossActive_eq]
    rfl
  · rw [bossNext_grantXp, hB.bossNext_eq]
    show (bossDown _).bossNextSpawnScore = _
    rw [bossNext_bossDown, hC.score_eq, score_addScore]
    rfl

/-- C7: boss scheduling.  (1) In an update tick, a boss spawns exactly when
the cumulative score strictly exceeds the current boss threshold and no boss
is active.  (2) At game start the threshold is 3000.  (3) While a boss is
active the ordinary enemy spawn cadence is suppressed to the fixed 3-second
boss-active interval: an enemy spawns exactly when the spawn timer passes
3.0.  (4) Killing a live boss clears the boss-active flag and sets the next
boss threshold to the new current score (the score after adding the boss's
own score value) plus 5000. -/
theorem boss_scheduling :
    (∀ (base score next : ℚ) (bossActive : Bool) (timer dt : ℚ),
        (spawnStep base score next bossActive timer dt).bossSpawned
          = (decide (next < score) && !bossActive))
    ∧ (∀ w h : ℚ, (startEngine w h).bossNextSpawnScore = 3000)
    ∧ (∀ (base score next timer dt : ℚ),
        (spawnStep base score next true timer dt).enemySpawned
          = decide ((3:ℚ) < timer + dt))
    ∧ (∀ (s : Engine) (i : Nat),
        (getEnt s i).marked = false → (getEnt s i).isBoss = true →
        (killEnemy s i).bossActive = false ∧
        (killEnemy s i).bossNextSpawnScore
          = s.score + (getEnt s i).scoreValue + 5000) := by
  refine ⟨?_, fun _ _ => rfl, ?_, fun s i hm hb => killEnemy_boss_effects s i hm hb⟩
  · intro base score next bossActive timer dt
    unfold spawnStep
    dsimp only
    repeat' split
    all_goals rfl
  · intro base score next timer dt
    unfold spawnStep
    dsimp only
    by_cases h3 : (3:ℚ) < timer + dt <;> simp [h3]

/-- Witness for C7 at concrete inputs: a boss spawn decision, the start
threshold, suppressed spawning under a live boss, and a concrete boss kill
(score 0, boss score value 20000 gives next threshold 25000). -/
theorem boss_scheduling_witness :
    (spawnStep 1 3500 3000 false 0 (1/60)).bossSpawned = (decide ((3000:ℚ) < 3500) && !false)
    ∧ (startEngine 800 600).bossNextSpawnScore = 3000
    ∧ (spawnStep 1 3500 3000 true 2 (1/2)).enemySpawned = decide ((3:ℚ) < 2 + 1/2)
    ∧ ((killEnemy { entities := [{ tag := EType.ENEMY_BOSS, health := 0, scoreValue := 20000, isBoss := true }] } 0).bossActive = false
       ∧ (killEnemy { entities := [{ tag := EType.ENEMY_BOSS, health := 0, scoreValue := 20000, isBoss := true }] } 0).bossNextSpawnScore
         = ({ entities := [{ tag := EType.ENEMY_BOSS, health := 0, scoreValue := 20000, isBoss := true }] } : Engine).score
           + (getEnt { entities := [{ tag := EType.ENEMY_BOSS, health := 0, scoreValue := 20000, isBoss := true }] } 0).scoreValue + 5000) :=
  ⟨boss_scheduling.1 1 3500 3000 false 0 (1/60),
   boss_scheduling.2.1 800 600,
   boss_scheduling.2.2.1 1 3500 3000 2 (1/2),
   boss_scheduling.2.2.2 _ 0 rfl rfl⟩

/-- C10: killEnemy is idempotent per enemy.  Calling it on an entity already
marked for deletion is a complete no-op — the engine state (score, boss
flag, entity collection, drops) is unchanged — and therefore a second kill
of the same entity index changes nothing: each enemy's score value is added
to the cumulative score at most once even under several damage sources in
the same tick. -/
theorem killEnemy_idempotent (s : Engine) (i : Nat) :
    ((getEnt s i).marked = true → killEnemy s i = s)
    ∧ (i < s.entities.length →
        killEnemy (killEnemy s i) i = killEnemy s i) := by
  refine ⟨killEnemy_marked_noop s i, ?_⟩
  intro hlen
  cases hmk : (getEnt s i).marked with
  | true =>
      rw [killEnemy_marked_noop s i hmk]
      exact killEnemy_marked_noop s i hmk
  | false =>
      exact killEnemy_marked_noop _ i (killEnemy_marks s i hmk hlen)

/-- Witness for C10: a marked enemy is untouched, and a double kill equals a
single kill, at a concrete one-enemy engine. -/
theorem killEnemy_idempotent_witness :
    killEnemy { entities := [{ tag := EType.ENEMY_BASIC, marked := true, scoreValue := 100 }] } 0
      = { entities := [{ tag := EType.ENEMY_BASIC, marked := true, scoreValue := 100 }] }
    ∧ killEnemy (killEnemy { entities := [{ tag := EType.ENEMY_BASIC, scoreValue := 100 }] } 0) 0
      = killEnemy { entities := [{ tag := EType.ENEMY_BASIC, scoreValue := 100 }] } 0 :=
  ⟨(killEnemy_idempotent _ 0).1 rfl,
   (killEnemy_idempotent _ 0).2 (by norm_num)⟩

/-- C1 counterexample: an enemy bullet hitting the player at health 5 leaves
the player at health negative 5 — the source has no clamp at 0 (the entity is
marked for deletion instead), so the resulting health differs from
max(0, h minus d). -/
theorem health_clamp_counterexample :
    (getEnt (handleCollision c1EngineC 0 1) 0).health = -5
    ∧ ¬ ((-5 : ℚ) = max 0 ((getEnt c1EngineC 0).health - 10)) := by
  obtain ⟨h1, -, -, -⟩ := handleCollision_bullet_player c1EngineC 0 1
    (by decide) (by decide) (by decide) rfl rfl rfl
  have h5 : (getEnt c1EngineC 0).health = 5 := rfl
  constructor
  · rw [h1, h5]; norm_num
  · rw [h5, max_eq_left (by norm_num : (5 : ℚ) - 10 ≤ 0)]
    norm_num

/-- C1 (amended): damage is applied without any clamp at 0.  An enemy bullet
hitting the unshielded player subtracts exactly 10 from health (so the result
is h minus 10, possibly negative, not max(0, h minus 10)); when the result is
at or below 0 the player entity is marked for deletion, otherwise its marked
flag is untouched, and the bullet is always consumed.  Health gains, by
contrast, are clamped: a HEALTH pickup sets health to
min(maxHealth, health + 30). -/
theorem health_update_semantics :
    (∀ (s : Engine) (i j : Nat), ¬ i = j →
      i < s.entities.length → j < s.entities.length →
      (getEnt s i).tag = EType.PLAYER →
      (getEnt s i).shieldActive = false →
      (getEnt s j).tag = EType.BULLET_ENEMY →
      (getEnt (handleCollision s i j) i).health = (getEnt s i).health - 10
      ∧ ((getEnt s i).health ≤ 10 →
          (getEnt (handleCollision s i j) i).marked = true)
      ∧ (¬ ((getEnt s i).health ≤ 10) →
          (getEnt (handleCollision s i j) i).marked = (getEnt s i).marked)
      ∧ (getEnt (handleCollision s i j) j).marked = true)
  ∧ (∀ (s : Engine) (ii pi : Nat), ¬ ii = pi →
      ii < s.entities.length → pi < s.entities.length →
      (getEnt s ii).itemKind = ItemKind.HEALTH →
      sqrtLt (dist2 (getEnt s ii) (getEnt s pi))
        ((getEnt s pi).radius + (getEnt s ii).radius) = true →
      (getEnt (itemPickup s ii pi) pi).health
        = min (getEnt s pi).maxHealth ((getEnt s pi).health + 30)) :=
  ⟨handleCollision_bullet_player, itemPickup_health_clamp⟩

/-- Witness for C1: on the concrete two-entity engines, a bullet hit takes the
player from health 50 to 40 and consumes the bullet, and a HEALTH pickup at
health 90 caps at the maximum 100. -/
theorem health_update_semantics_witness :
    (getEnt (handleCollision c1EngineA 0 1) 0).health = 40
    ∧ (getEnt (handleCollision c1EngineA 0 1) 1).marked = true
    ∧ (getEnt (itemPickup c1EngineB 0 1) 1).health = 100 := by
  obtain ⟨hA, hB⟩ := health_update_semantics
  obtain ⟨h1, -, -, h4⟩ := hA c1EngineA 0 1 (by decide) (by decide) (by decide)
    rfl rfl rfl
  have hp : (getEnt c1EngineA 0).health = 50 := rfl
  refine ⟨by rw [h1, hp]; norm_num, h4, ?_⟩
  have h2 := hB c1EngineB 0 1 (by decide) (by decide) (by decide) rfl ?_
  · rw [h2, show (getEnt c1EngineB 1).maxHealth = 100 from rfl,
      show (getEnt c1EngineB 1).health = 90 from rfl]
    norm_num
  · rw [show dist2 (getEnt c1EngineB 0) (getEnt c1EngineB 1)
        = (400 - 400) * (400 - 400) + (500 - 500) * (500 - 500) from rfl,
      show (getEnt c1EngineB 1).radius = 20 from rfl,
      show (getEnt c1EngineB 0).radius = 10 from rfl]
    simp only [sqrtLt, Bool.and_eq_true, decide_eq_true_eq]
    norm_num

/-- C6: while the player's shield is active, a pair test of the scan against
an overlapping enemy bullet (in either order of the pair) only marks the
bullet for deletion — the player's health is untouched and the bullet is
consumed — and a pair test against an overlapping enemy is a complete no-op:
no damage is applied.  The overlap hypothesis is the generic collision
condition dist less than the sum of the radii; the player's radius (20 in the
source) is at most 50, so overlap implies the shield-branch distance test. -/
theorem shield_immunity (s : Engine) (i j : Nat)
    (hij : ¬ i = j) (hj : j < s.entities.length)
    (hpl : (getEnt s i).tag = EType.PLAYER)
    (hsh : (getEnt s i).shieldActive = true)
    (hpr : (getEnt s i).radius ≤ 50)
    (hov : sqrtLt (dist2 (getEnt s i) (getEnt s j))
        ((getEnt s i).radius + (getEnt s j).radius) = true) :
    ((getEnt s j).tag = EType.BULLET_ENEMY →
        pairBody s i j = updAt s j markEnt
      ∧ pairBody s j i = updAt s j markEnt
      ∧ (getEnt (pairBody s i j) i).health = (getEnt s i).health
      ∧ (getEnt (pairBody s i j) j).marked = true)
  ∧ (isEnemyTag (getEnt s j) = true →
        pairBody s i j = s ∧ pairBody s j i = s) := by
  have h50 : sqrtLt (dist2 (getEnt s i) (getEnt s j)) (50 + (getEnt s j).radius) = true :=
    sqrtLt_of_le hov (by linarith)
  have h50r : sqrtLt (dist2 (getEnt s j) (getEnt s i)) (50 + (getEnt s j).radius) = true := by
    rw [dist2_comm]; exact h50
  constructor
  · intro hb
    have e1 := pairBody_shield_bullet s i j hpl hsh hb h50
    have e2 := pairBody_shield_bullet_rev s i j hpl hsh hb h50r
    refine ⟨e1, e2, ?_, ?_⟩
    · rw [e1, getEnt_updAt_ne _ _ _ _ (fun h => hij h.symm)]
    · rw [e1, getEnt_updAt_self _ _ _ hj]
      rfl
  · intro hb
    exact ⟨pairBody_shield_enemy s i j hpl hsh hb h50,
           pairBody_shield_enemy_rev s i j hpl hsh hb h50r⟩

/-- Witness for C6: on the concrete shielded configuration the overlapping
enemy bullet is consumed and the player keeps its health. -/
theorem shield_immunity_witness :
    pairBody c6Engine 0 1 = updAt c6Engine 1 markEnt
    ∧ (getEnt (pairBody c6Engine 0 1) 0).health = (getEnt c6Engine 0).health := by
  have hd : dist2 (getEnt c6Engine 0) (getEnt c6Engine 1)
      = (400 - 410) * (400 - 410) + (500 - 500) * (500 - 500) := rfl
  have hr0 : (getEnt c6Engine 0).radius = 20 := rfl
  have hr1 : (getEnt c6Engine 1).radius = 10 := rfl
  have hov : sqrtLt (dist2 (getEnt c6Engine 0) (getEnt c6Engine 1))
      ((getEnt c6Engine 0).radius + (getEnt c6Engine 1).radius) = true := by
    rw [hd, hr0, hr1]
    simp only [sqrtLt, Bool.and_eq_true, decide_eq_true_eq]
    norm_num
  have h := shield_immunity c6Engine 0 1 (by decide) (by decide) rfl rfl
    (by rw [hr0]; norm_num) hov
  obtain ⟨e1, -, e3, -⟩ := h.1 rfl
  exact ⟨e1, e3⟩

/-- C4 counterexample: in the three-entity configuration c4Engine the scan of
row 0 first tests the pair (0, 1); the shockwave consumes bullet 0, marking
it.  The outer entity's marked flag was checked only at the start of the row,
so the already-marked bullet 0 is nevertheless collision-tested against
entity 2 — the log records the pair (0, 2) tested with outerMarked = true —
refuting the claim that a marked entity is never collision-tested again
within the same tick. -/
theorem marked_retest_counterexample :
    checkCollisions c4Engine
      = some (updAt (updAt c4Engine 0 markEnt) 2 markEnt,
              [⟨0, 1, false⟩, ⟨0, 2, true⟩, ⟨1, 2, false⟩])
    ∧ (getEnt (updAt c4Engine 0 markEnt) 0).marked = true := by
  have hq01 : dist2 (getEnt c4Engine 1) (getEnt c4Engine 0)
      = (0 - 0) * (0 - 0) + (0 - 0) * (0 - 0) := rfl
  have hr1 : (getEnt c4Engine 1).radius = 10 := rfl
  have hband1 : sqrtGt (dist2 (getEnt c4Engine 1) (getEnt c4Engine 0))
      ((getEnt c4Engine 1).radius - 60) = true := by
    rw [hq01, hr1]
    simp only [sqrtGt, Bool.or_eq_true, decide_eq_true_eq]
    exact Or.inl (by norm_num)
  have hband2 : sqrtLt (dist2 (getEnt c4Engine 1) (getEnt c4Engine 0))
      ((getEnt c4Engine 1).radius + 60) = true := by
    rw [hq01, hr1]
    simp only [sqrtLt, Bool.and_eq_true, decide_eq_true_eq]
    constructor <;> norm_num
  have hpair01 : pairBody c4Engine 0 1 = updAt c4Engine 0 markEnt :=
    pairBody_wave_bullet_rev c4Engine 0 1 rfl rfl hband1 hband2
  have hpair02 : pairBody (updAt c4Engine 0 markEnt) 0 2 = updAt c4Engine 0 markEnt :=
    pairBody_enemy_bullets _ 0 2 rfl rfl
  have hq12 : dist2 (getEnt (updAt c4Engine 0 markEnt) 1) (getEnt (updAt c4Engine 0 markEnt) 2)
      = (0 - 0) * (0 - 0) + (0 - 0) * (0 - 0) := rfl
  have hr1w : (getEnt (updAt c4Engine 0 markEnt) 1).radius = 10 := rfl
  have hband1w : sqrtGt (dist2 (getEnt (updAt c4Engine 0 markEnt) 1)
        (getEnt (updAt c4Engine 0 markEnt) 2))
      ((getEnt (updAt c4Engine 0 markEnt) 1).radius - 60) = true := by
    rw [hq12, hr1w]
    simp only [sqrtGt, Bool.or_eq_true, decide_eq_true_eq]
    exact Or.inl (by norm_num)
  have hband2w : sqrtLt (dist2 (getEnt (updAt c4Engine 0 markEnt) 1)
        (getEnt (updAt c4Engine 0 markEnt) 2))
      ((getEnt (updAt c4Engine 0 markEnt) 1).radius + 60) = true := by
    rw [hq12, hr1w]
    simp only [sqrtLt, Bool.and_eq_true, decide_eq_true_eq]
    constructor <;> norm_num
  have hpair12 : pairBody (updAt c4Engine 0 markEnt) 1 2
      = updAt (updAt c4Engine 0 markEnt) 2 markEnt :=
    pairBody_wave_bullet _ 1 2 rfl rfl hband1w hband2w
  have hinner0 : ∀ g : ℕ, scanInner (g + 1 + 1 + 1) c4Engine [] 0 1
      = some (updAt c4Engine 0 markEnt, [⟨0, 1, false⟩, ⟨0, 2, true⟩]) := by
    intro g
    rw [scanInner_test (g + 1 + 1) c4Engine [] 0 1 (by decide) rfl, hpair01,
      show (getEnt c4Engine 0).marked = false from rfl]
    simp only [List.nil_append]
    rw [scanInner_test (g + 1) (updAt c4Engine 0 markEnt) [⟨0, 1, false⟩] 0 2
        (by decide) rfl, hpair02,
      show (getEnt (updAt c4Engine 0 markEnt) 0).marked = true from rfl]
    simp only [List.cons_append, List.nil_append]
    exact scanInner_done g _ _ 0 3 (by decide)
  have hinner1 : ∀ g : ℕ, scanInner (g + 1 + 1) (updAt c4Engine 0 markEnt)
        [⟨0, 1, false⟩, ⟨0, 2, true⟩] 1 2
      = some (updAt (updAt c4Engine 0 markEnt) 2 markEnt,
              [⟨0, 1, false⟩, ⟨0, 2, true⟩, ⟨1, 2, false⟩]) := by
    intro g
    rw [scanInner_test (g + 1) (updAt c4Engine 0 markEnt)
        [⟨0, 1, false⟩, ⟨0, 2, true⟩] 1 2 (by decide) rfl, hpair12,
      show (getEnt (updAt c4Engine 0 markEnt) 1).marked = false from rfl]
    simp only [List.cons_append, List.nil_append]
    exact scanInner_done g _ _ 1 3 (by decide)
  refine ⟨?_, rfl⟩
  show scanOuter (4485 + 1 + 1 + 1 + 1) (4486 + 1 + 1 + 1) c4Engine [] 0 = _
  rw [scanOuter_row (4485 + 1 + 1 + 1) (4486 + 1 + 1 + 1) c4Engine _ [] _ 0
      (by decide) rfl (hinner0 4486)]
  rw [scanOuter_row (4485 + 1 + 1) (4486 + 1 + 1 + 1) (updAt c4Engine 0 markEnt) _ _ _ 1
      (by decide) rfl (hinner1 4487)]
  rw [scanOuter_skip (4485 + 1) (4486 + 1 + 1 + 1)
      (updAt (updAt c4Engine 0 markEnt) 2 markEnt) _ 2 (by decide) rfl]
  exact scanOuter_done 4485 _ _ _ 3 (by decide)

/-- C4 (amended): the sweep at the end of a tick removes every marked entity,
so an entity marked in tick N is gone from the live collection when tick N+1
begins; and the scan skips marked entities when they are the inner partner of
a test and skips whole rows whose outer entity was already marked when the
row began.  (What fails in the original claim is only the outer entity
marked mid-row, per the counterexample.) -/
theorem removal_semantics :
    (∀ (s : Engine), ∀ e ∈ (sweep s).entities, e.marked = false)
  ∧ (∀ (fuel innerFuel : ℕ) (s : Engine) (log : List PairTest) (i : Nat),
      i < s.entities.length → (getEnt s i).marked = true →
      scanOuter (fuel + 1) innerFuel s log i = scanOuter fuel innerFuel s log (i + 1))
  ∧ (∀ (fuel : ℕ) (s : Engine) (log : List PairTest) (i j : Nat),
      j < s.entities.length → (getEnt s j).marked = true →
      scanInner (fuel + 1) s log i j = scanInner fuel s log i (j + 1)) :=
  ⟨sweep_unmarks,
   fun fuel innerFuel s log i hi hm => scanOuter_skip fuel innerFuel s log i hi hm,
   fun fuel s log i j hj hm => scanInner_skip fuel s log i j hj hm⟩

/-- Witness for C4: after bullet 0 of the test configuration is marked, the
sweep drops it (the surviving head entity is unmarked), and both loops of the
scan skip it. -/
theorem removal_semantics_witness :
    (getEnt (sweep (updAt c4Engine 0 markEnt)) 0).marked = false
    ∧ scanOuter (0 + 1) 7 (updAt c4Engine 0 markEnt) [] 0
        = scanOuter 0 7 (updAt c4Engine 0 markEnt) [] (0 + 1)
    ∧ scanInner (0 + 1) (updAt c4Engine 0 markEnt) [] 1 0
        = scanInner 0 (updAt c4Engine 0 markEnt) [] 1 (0 + 1) := by
  refine ⟨?_, ?_, ?_⟩
  · exact removal_semantics.1 (updAt c4Engine 0 markEnt)
      (getEnt (sweep (updAt c4Engine 0 markEnt)) 0) (List.mem_cons_self _ _)
  · exact removal_semantics.2.1 0 7 (updAt c4Engine 0 markEnt) [] 0 (by decide) rfl
  · exact removal_semantics.2.2 0 (updAt c4Engine 0 markEnt) [] 1 0 (by decide) rfl

end ShootGame
